import Mathlib

/-!
# Vendor-Portal backend (`src/backend/server.js`)

A shallow embedding of the Express adapter service: the JavaScript values the
handlers touch, the Date Normalizer `parseSapDate`, the Error Normalizer
`handleSapError` and the nine route handlers, followed by the properties the
specification states about them.

Conventions of the embedding:
* a JavaScript string is the list of its UTF-16 code units, so `length`,
  `substring` and `padStart` count exactly what the engine counts;
* an exception is an `Except` error; a handler is a small program that either
  finishes at once or performs its single outbound call and continues with the
  result of that call;
* library behaviour the handlers rely on (ECMAScript `Date`, `String`, property
  access, axios' result shape) is modelled from the language standard.
-/

namespace VendorPortal

/-! ## JavaScript values -/

/-- A JavaScript string, as the list of its UTF-16 code units. -/
abbrev JSStr := List Nat

/-- UTF-16 code units of a string literal of the source text. -/
def utf16 (s : String) : JSStr :=
  (s.toList.map fun c =>
    if c.toNat < 0x10000 then [c.toNat]
    else [0xD800 + (c.toNat - 0x10000) / 0x400, 0xDC00 + (c.toNat - 0x10000) % 0x400]).flatten

/-- A JavaScript number as produced by `JSON.parse` or by `length`: the exact
value of a finite double (both zeros are the rational `0`, which is all that
`===`, truthiness and string conversion can observe) or an infinity. `NaN` is
not a JSON value and no expression of the program produces one from JSON. -/
inductive JSNum
  | finite (q : ℚ)
  | infinite (negative : Bool)
  deriving DecidableEq

/-- The values that reach the handlers: `undefined`, the JSON values delivered
by the body parser and by axios, and a binary `Buffer` (the payload of an
`arraybuffer` response). An object is the list of its own properties. -/
inductive JSVal
  | undefined
  | null
  | bool (b : Bool)
  | num (n : JSNum)
  | str (s : JSStr)
  | arr (items : List JSVal)
  | obj (fields : List (JSStr × JSVal))
  | buffer (bytes : List Nat)

/-- The number `n` as a JavaScript value. -/
def JSVal.ofNat (n : Nat) : JSVal := .num (.finite (n : ℚ))

/-- The exceptions the program can raise, by cause. -/
inductive JSErr
  /-- A `TypeError`: a property was read from `undefined` or `null`. -/
  | readOfNullish
  /-- A `TypeError`: a value that is not a function was called. -/
  | notAFunction
  /-- A `TypeError`: an object has no primitive value to interpolate. -/
  | noPrimitive
  /-- The `RangeError` of `toISOString` on an invalid date. -/
  | invalidTime
  /-- A `TypeError`: a header value holds a character that HTTP forbids. -/
  | invalidHeaderChar
  /-- The `RangeError` of a status code outside 100 to 999. -/
  | invalidStatus
  deriving DecidableEq

/-- Engine behaviour the program observes only as text: how a number or a
buffer is printed inside a template literal and the `message` the engine
attaches to each exception. -/
structure Runtime where
  numberToString : JSNum → JSStr
  bufferToString : List Nat → JSStr
  errorMessage : JSErr → JSStr

/-- ToBoolean. -/
def truthy : JSVal → Bool
  | .undefined => false
  | .null => false
  | .bool b => b
  | .num (.finite q) => decide (q ≠ 0)
  | .num (.infinite _) => true
  | .str s => !s.isEmpty
  | .arr _ => true
  | .obj _ => true
  | .buffer _ => true

/-- The operator `===`. Two objects, arrays or buffers are equal only when they
are the same allocation; the operands compared by the program come from
different sources (request body against upstream response, a value against a
literal), so two such operands are never identical. -/
def strictEq : JSVal → JSVal → Bool
  | .undefined, .undefined => true
  | .null, .null => true
  | .bool a, .bool b => a == b
  | .num a, .num b => decide (a = b)
  | .str a, .str b => decide (a = b)
  | _, _ => false

/-- Own property `key` of an object, `undefined` when there is none. -/
def lookup (key : JSStr) : List (JSStr × JSVal) → JSVal
  | [] => .undefined
  | (k, v) :: rest => if k = key then v else lookup key rest

/-- Whether an object has the own property `key`. -/
def hasOwn (key : JSStr) : List (JSStr × JSVal) → Bool
  | [] => false
  | (k, _) :: rest => if k = key then true else hasOwn key rest

/-- Property read `v.key` on a value that is neither `undefined` nor `null`.
The names the program reads are data field names and `length`; none of them
is inherited from `Object.prototype`, and `length` is the only one strings,
arrays and buffers define. -/
def getOwn (v : JSVal) (key : JSStr) : JSVal :=
  match v with
  | .obj fields => lookup key fields
  | .str s => if key = utf16 "length" then .ofNat s.length else .undefined
  | .arr items => if key = utf16 "length" then .ofNat items.length else .undefined
  | .buffer bytes => if key = utf16 "length" then .ofNat bytes.length else .undefined
  | _ => .undefined

/-- Property read `v.key`: a `TypeError` on `undefined` and `null`. -/
def getProp (v : JSVal) (key : String) : Except JSErr JSVal :=
  match v with
  | .undefined => .error .readOfNullish
  | .null => .error .readOfNullish
  | _ => .ok (getOwn v (utf16 key))

/-- Optional chaining `v?.key`. -/
def optProp (v : JSVal) (key : String) : JSVal :=
  match v with
  | .undefined => .undefined
  | .null => .undefined
  | _ => getOwn v (utf16 key)

mutual
/-- ToString, as applied by a template literal `${v}`. A plain object prints
as `[object Object]` through `Object.prototype.toString`; an own property
`toString` (never callable in a JSON value) shadows it, and then no primitive
value exists. An array prints as its elements joined by commas. -/
def toStr (rt : Runtime) : JSVal → Except JSErr JSStr
  | .undefined => .ok (utf16 "undefined")
  | .null => .ok (utf16 "null")
  | .bool b => .ok (if b then utf16 "true" else utf16 "false")
  | .num n => .ok (rt.numberToString n)
  | .str s => .ok s
  | .arr items => joinStr rt items
  | .obj fields =>
      if hasOwn (utf16 "toString") fields then .error .noPrimitive
      else .ok (utf16 "[object Object]")
  | .buffer bytes => .ok (rt.bufferToString bytes)
/-- The body of `Array.prototype.join` with the default separator: `undefined`
and `null` elements print as the empty string. -/
def joinStr (rt : Runtime) : List JSVal → Except JSErr JSStr
  | [] => .ok []
  | x :: rest => do
      let head ← (match x with
        | .undefined => .ok []
        | .null => .ok []
        | v => toStr rt v)
      match rest with
      | [] => .ok head
      | _ :: _ => do
          let tail ← joinStr rt rest
          .ok (head ++ utf16 "," ++ tail)
end

/-! ## String helpers -/

/-- The method `padStart(maxLength, fillString)` of strings: nothing is added
when the string already has `maxLength` code units or the filler is empty;
otherwise the filler is repeated and cut to the missing length. -/
def padStart (s : JSStr) (maxLength : Nat) (fillString : JSStr) : JSStr :=
  if maxLength ≤ s.length then s
  else if fillString.isEmpty then s
  else
    let fillLen := maxLength - s.length
    ((List.replicate fillLen fillString).flatten.take fillLen) ++ s

/-- The method `substring(start, end)` of strings: both indices are clamped to
the length and swapped when out of order. -/
def substring (s : JSStr) (start stop : Nat) : JSStr :=
  let a := min start s.length
  let b := min stop s.length
  (s.drop (min a b)).take (max a b - min a b)

/-- The regular-expression class `\d` (without the unicode flag): `0` to `9`. -/
def isDigit (c : Nat) : Bool := decide (48 ≤ c) && decide (c ≤ 57)

/-- Matching a literal at the head of the input: the rest on success. -/
def dropLiteral : JSStr → JSStr → Option JSStr
  | [], s => some s
  | _ :: _, [] => none
  | p :: ps, c :: cs => if p = c then dropLiteral ps cs else none

/-- The pattern `\/Date\((\d+)\)\//` tried at the head of the input: the
captured digits. The greedy `\d+` takes the whole run of digits; giving digits
back cannot help, because the next pattern character `)` is not a digit. -/
def matchDateHere (s : JSStr) : Option JSStr :=
  match dropLiteral (utf16 "/Date(") s with
  | none => none
  | some rest =>
      let digits := rest.takeWhile isDigit
      if digits.isEmpty then none
      else
        match dropLiteral (utf16 ")/") (rest.dropWhile isDigit) with
        | none => none
        | some _ => some digits

/-- The call `s.match(/\/Date\((\d+)\)\//)`: capture group 1 of the leftmost
match, `none` when the pattern occurs nowhere in `s` (the pattern carries no
anchors). -/
def matchDate : JSStr → Option JSStr
  | [] => matchDateHere []
  | c :: cs =>
      match matchDateHere (c :: cs) with
      | some digits => some digits
      | none => matchDate cs

/-- The call `Number(digits)` on a string of decimal digits, as the exact
integer. The engine rounds to the nearest double, which changes nothing up to
`2^53`; a larger value rounds to one that is still at least `2^53` and so stays
beyond the range of `Date` (see `makeDate`). -/
def digitsToNumber (digits : JSStr) : Nat :=
  digits.foldl (fun acc c => 10 * acc + (c - 48)) 0

/-! ## ECMAScript dates

Time values are milliseconds since 1970-01-01T00:00:00Z. The only time values
the program builds come from a run of decimal digits, so they are natural
numbers. The functions below are those of the language standard (section
"Time Values and Time Range" and `Date.prototype.toISOString`). -/

def msPerDay : Nat := 86400000

/-- Day number of a time value. -/
def Day (t : Nat) : Nat := t / msPerDay

/-- Milliseconds elapsed within the day. -/
def TimeWithinDay (t : Nat) : Nat := t % msPerDay

def DaysInYear (y : Nat) : Nat :=
  if y % 4 ≠ 0 then 365
  else if y % 100 ≠ 0 then 366
  else if y % 400 ≠ 0 then 365
  else 366

/-- Day number of the first day of year `y`. -/
def DayFromYear (y : Nat) : Int :=
  365 * ((y : Int) - 1970) + ((y : Int) - 1969) / 4 - ((y : Int) - 1901) / 100
    + ((y : Int) - 1601) / 400

/-- The largest year `y` whose first day is not after the day of `t`. The
search starts at `1970 + Day t / 365`, which no candidate exceeds because a
year has at least 365 days. -/
def YearFromTime (t : Nat) : Nat :=
  Nat.findGreatest (fun y => DayFromYear y ≤ (Day t : Int)) (1970 + Day t / 365)

def InLeapYear (t : Nat) : Nat :=
  if DaysInYear (YearFromTime t) = 366 then 1 else 0

def DayWithinYear (t : Nat) : Nat :=
  ((Day t : Int) - DayFromYear (YearFromTime t)).toNat

/-- The table of `MonthFromTime`: the month number (`0` for January to `11`
for December) of the day `d` within a year, `leap` being `1` in a leap year
and `0` otherwise. -/
def monthOfDay (d leap : Nat) : Nat :=
  if d < 31 then 0
  else if d < 59 + leap then 1
  else if d < 90 + leap then 2
  else if d < 120 + leap then 3
  else if d < 151 + leap then 4
  else if d < 181 + leap then 5
  else if d < 212 + leap then 6
  else if d < 243 + leap then 7
  else if d < 273 + leap then 8
  else if d < 304 + leap then 9
  else if d < 334 + leap then 10
  else 11

/-- Month number, `0` for January to `11` for December. -/
def MonthFromTime (t : Nat) : Nat :=
  monthOfDay (DayWithinYear t) (InLeapYear t)

/-- The table of `DateFromTime`: the day of the month (from `1`) of the day
`d` within a year, by month number. -/
def dateOfDay (d leap month : Nat) : Nat :=
  match month with
  | 0 => d + 1
  | 1 => d - 30
  | 2 => d - 58 - leap
  | 3 => d - 89 - leap
  | 4 => d - 119 - leap
  | 5 => d - 150 - leap
  | 6 => d - 180 - leap
  | 7 => d - 211 - leap
  | 8 => d - 242 - leap
  | 9 => d - 272 - leap
  | 10 => d - 303 - leap
  | _ => d - 333 - leap

/-- Day of the month, from `1`. -/
def DateFromTime (t : Nat) : Nat :=
  dateOfDay (DayWithinYear t) (InLeapYear t) (MonthFromTime t)

def HourFromTime (t : Nat) : Nat := t / 3600000 % 24

def MinFromTime (t : Nat) : Nat := t / 60000 % 60

def SecFromTime (t : Nat) : Nat := t / 1000 % 60

def msFromTime (t : Nat) : Nat := t % 1000

/-- The decimal digit `d` as a code unit. -/
def digitChar (d : Nat) : Nat := 48 + d % 10

/-- Decimal representation padded with zeros to two digits. -/
def dec2 (n : Nat) : JSStr := [digitChar (n / 10), digitChar n]

/-- Decimal representation padded with zeros to three digits. -/
def dec3 (n : Nat) : JSStr := [digitChar (n / 100), digitChar (n / 10), digitChar n]

/-- Decimal representation padded with zeros to four digits. -/
def dec4 (n : Nat) : JSStr :=
  [digitChar (n / 1000), digitChar (n / 100), digitChar (n / 10), digitChar n]

/-- Decimal representation padded with zeros to six digits. -/
def dec6 (n : Nat) : JSStr :=
  [digitChar (n / 100000), digitChar (n / 10000), digitChar (n / 1000), digitChar (n / 100),
    digitChar (n / 10), digitChar n]

/-- The year of an ISO date-time string: four digits for the years 0 to 9999,
otherwise the expanded form, a sign and six digits. -/
def isoYear (y : Nat) : JSStr :=
  if y ≤ 9999 then dec4 y else utf16 "+" ++ dec6 y

/-- The constructor call `new Date(value)` on a non-negative integer: the time
value, or `none` for an invalid date when `value` exceeds the range of
8.64e15 milliseconds (TimeClip). -/
def makeDate (value : Nat) : Option Nat :=
  if value > 8640000000000000 then none else some value

/-- The method `toISOString` of a date: `YYYY-MM-DDTHH:mm:ss.sssZ` in UTC, a
`RangeError` on an invalid date. -/
def toISOString (date : Option Nat) : Except JSErr JSStr :=
  match date with
  | none => .error .invalidTime
  | some t =>
      .ok (isoYear (YearFromTime t) ++ utf16 "-" ++ dec2 (MonthFromTime t + 1) ++ utf16 "-"
        ++ dec2 (DateFromTime t) ++ utf16 "T" ++ dec2 (HourFromTime t) ++ utf16 ":"
        ++ dec2 (MinFromTime t) ++ utf16 ":" ++ dec2 (SecFromTime t) ++ utf16 "."
        ++ dec3 (msFromTime t) ++ utf16 "Z")

/-- The expression `s.split(sep)[0]` for a separator of one code unit: the part
of `s` before the first separator, all of `s` when there is none. -/
def splitHead (s : JSStr) (sep : Nat) : JSStr :=
  s.takeWhile fun c => c != sep

/-! ## Date Normalizer -/

/-- The call `sapDate?.match(/\/Date\((\d+)\)\//)`: skipped on `undefined` and
`null`, the regular-expression match on a string, and a `TypeError` on any
other value, which has no callable `match`. -/
def optMatchDate (sapDate : JSVal) : Except JSErr (Option JSStr) :=
  match sapDate with
  | .undefined => .ok none
  | .null => .ok none
  | .str s => .ok (matchDate s)
  | _ => .error .notAFunction

/-- The call `sapDate.substring(start, end)`. -/
def callSubstring (sapDate : JSVal) (start stop : Nat) : Except JSErr JSStr :=
  match sapDate with
  | .str s => .ok (substring s start stop)
  | .undefined => .error .readOfNullish
  | .null => .error .readOfNullish
  | _ => .error .notAFunction

/-- The function `parseSapDate` of `server.js`. -/
def parseSapDate (sapDate : JSVal) : Except JSErr JSVal := do
  let m ← optMatchDate sapDate
  match m with
  | some digits => do
      let iso ← toISOString (makeDate (digitsToNumber digits))
      .ok (.str (splitHead iso 84))
  | none =>
      if strictEq (optProp sapDate "length") (.ofNat 8) then do
        let yyyy ← callSubstring sapDate 0 4
        let mm ← callSubstring sapDate 4 6
        let dd ← callSubstring sapDate 6 8
        .ok (.str (yyyy ++ utf16 "-" ++ mm ++ utf16 "-" ++ dd))
      else .ok .null

/-! ## Requests, replies and the shape of a handler -/

/-- The process environment read at start-up; a variable that is not set
reads as `undefined`. -/
structure Config where
  SAP_USERNAME : Option JSStr
  SAP_PASSWORD : Option JSStr
  SAP_BASE_URL : Option JSStr

/-- A string or `undefined` inside a template literal. -/
def template (v : Option JSStr) : JSStr :=
  match v with
  | some s => s
  | none => utf16 "undefined"

inductive ResponseType
  | json
  | arraybuffer
  deriving DecidableEq

/-- The arguments of one `axios.get` call. -/
structure OutboundRequest where
  url : JSStr
  username : Option JSStr
  password : Option JSStr
  accept : JSStr
  responseType : ResponseType
  rejectUnauthorized : Bool

/-- An HTTP response of the upstream system as axios presents it. -/
structure UpstreamResponse where
  status : Nat
  statusText : JSVal
  data : JSVal

/-- The error object caught by a handler: its `message` and, when the upstream
system answered, its `response`. An exception raised inside the `try` block
has a message and no `response` property. -/
structure Failure where
  message : JSStr
  response : Option UpstreamResponse

/-- How the awaited `axios.get` settles: fulfilled with a response of a 2xx
status, or rejected with an error. -/
inductive UpstreamResult
  | fulfilled (response : UpstreamResponse)
  | rejected (error : Failure)

/-- What a handler did with `res`: the status, the headers given to `res.set`,
the value handed to `res.json` or `res.send`, and the lines written with
`console.error` (context label and message). -/
structure Reply where
  status : Nat
  headers : List (JSStr × JSVal)
  body : JSVal
  log : List (JSStr × JSStr)

/-- The call `res.status(status).json(body)`. -/
def jsonReply (status : Nat) (body : JSVal) : Reply :=
  ⟨status, [], body, []⟩

/-- How the handling of a request ends: with a reply, or with an exception
that escapes the handler before any reply. -/
inductive Outcome
  | replied (r : Reply)
  | uncaught (e : JSErr)

/-- A route handler: it finishes without contacting the upstream system, or it
makes one outbound request and continues with the way that request settles. -/
inductive Handler
  | finish (o : Outcome)
  | request (req : OutboundRequest) (next : UpstreamResult → Outcome)

/-- The outbound requests a handler makes. -/
def Handler.calls : Handler → List OutboundRequest
  | .finish _ => []
  | .request req _ => [req]

/-- The outcome of a handler when its outbound request, if it makes one,
settles as `result`. -/
def Handler.outcome (h : Handler) (result : UpstreamResult) : Outcome :=
  match h with
  | .finish o => o
  | .request _ next => next result

/-- The common options of the JSON calls: basic authentication from the
environment, `Accept: application/json`, certificate checks switched off. -/
def jsonGet (cfg : Config) (url : JSStr) : OutboundRequest :=
  ⟨url, cfg.SAP_USERNAME, cfg.SAP_PASSWORD, utf16 "application/json", .json, false⟩

/-! ## Error Normalizer -/

/-- The function `handleSapError` of `server.js`. -/
def handleSapError (error : Failure) (context : String) : Reply :=
  let log := [(utf16 context, error.message)]
  match error.response with
  | some response =>
      ⟨response.status, [],
        .obj [(utf16 "error", .str (utf16 context)),
              (utf16 "statusText", response.statusText),
              (utf16 "details", response.data)],
        log⟩
  | none =>
      ⟨500, [],
        .obj [(utf16 "error", .str (utf16 context ++ utf16 " failed")),
              (utf16 "details", .str error.message)],
        log⟩

/-- The `try` block around the awaited call and the statements after it: a
rejected call and an exception of the block both reach `handleSapError`. -/
def tryBlock (rt : Runtime) (context : String) (result : UpstreamResult)
    (body : UpstreamResponse → Except JSErr Reply) : Outcome :=
  match result with
  | .rejected error => .replied (handleSapError error context)
  | .fulfilled response =>
      match body response with
      | .ok r => .replied r
      | .error e => .replied (handleSapError ⟨rt.errorMessage e, none⟩ context)

/-- The expression `response.data?.d?.results || []`. -/
def resultsOrEmpty (response : UpstreamResponse) : JSVal :=
  let results := optProp (optProp response.data "d") "results"
  if truthy results then results else .arr []

/-- The call `entries.map(f)`: only an array has a callable `map`. -/
def callMap (entries : JSVal) (f : JSVal → Except JSErr JSVal) : Except JSErr JSVal :=
  match entries with
  | .arr items => do
      let mapped ← items.mapM f
      .ok (.arr mapped)
  | .undefined => .error .readOfNullish
  | .null => .error .readOfNullish
  | _ => .error .notAFunction

/-- The value of `req.params.vendorId?.padStart(10, '0')`. -/
def paddedVendorId (vendorId : Option JSStr) : Option JSStr :=
  vendorId.map fun s => padStart s 10 (utf16 "0")

/-! ## Route handlers -/

/-- The statements of the login handler after the awaited call: the lookup
of the upstream record and the password comparison. -/
def loginCheck (password : JSVal) (response : UpstreamResponse) : Except JSErr Reply :=
  let sapData := optProp response.data "d"
  if !truthy sapData then
    .ok (jsonReply 404 (.obj [(utf16 "message", .str (utf16 "Vendor not found"))]))
  else do
    let stored ← getProp sapData "Password"
    if strictEq stored password then
      .ok (jsonReply 200 (.obj [(utf16 "message", .str (utf16 "Login successful"))]))
    else
      .ok (jsonReply 401 (.obj [(utf16 "message", .str (utf16 "Invalid password"))]))

/-- The handler of `POST /login`; `body` is `req.body`. -/
def login (rt : Runtime) (cfg : Config) (body : JSVal) : Handler :=
  match getProp body "lifnr", getProp body "password" with
  | .error e, _ => .finish (.uncaught e)
  | _, .error e => .finish (.uncaught e)
  | .ok lifnr, .ok password =>
      if !truthy lifnr || !truthy password then
        .finish (.replied (jsonReply 400
          (.obj [(utf16 "error", .str (utf16 "Lifnr and password are required"))])))
      else
        match toStr rt lifnr with
        | .error e => .finish (.uncaught e)
        | .ok id =>
            .request
              (jsonGet cfg (template cfg.SAP_BASE_URL ++ utf16 "/ZVENDOR_ATCLOGINSet(Lifnr='"
                ++ id ++ utf16 "')"))
              fun result => tryBlock rt "SAP Login Error" result (loginCheck password)

/-- The handler of `GET /profile/:vendorId`. -/
def profile (rt : Runtime) (cfg : Config) (vendorId : Option JSStr) : Handler :=
  .request
    (jsonGet cfg (template cfg.SAP_BASE_URL ++ utf16 "/ZATC_VENDORPROFILESet(VendorId='"
      ++ template (paddedVendorId vendorId) ++ utf16 "')"))
    fun result => tryBlock rt "SAP Profile Error" result fun response =>
      let data := optProp response.data "d"
      if !truthy data then
        .ok (jsonReply 404 (.obj [(utf16 "message", .str (utf16 "Profile not found"))]))
      else do
        let vendorId ← getProp data "VendorId"
        let name ← getProp data "Name"
        let city ← getProp data "City"
        let country ← getProp data "Country"
        let postcode ← getProp data "Postcode"
        let street ← getProp data "Street"
        .ok (jsonReply 200 (.obj [
          (utf16 "vendorId", vendorId),
          (utf16 "name", name),
          (utf16 "city", city),
          (utf16 "country", country),
          (utf16 "postcode", postcode),
          (utf16 "street", street)]))

/-- The record built for one entry of the goods-receipt collection. -/
def goodsReceiptOf (entry : JSVal) : Except JSErr JSVal := do
  let materialDoc ← getProp entry "MaterialDoc"
  let docYear ← getProp entry "DocYear"
  let postDate ← getProp entry "PostDate" >>= parseSapDate
  let entryDate ← getProp entry "EntryDate" >>= parseSapDate
  let poNumber ← getProp entry "PoNumber"
  let poItem ← getProp entry "PoItem"
  let material ← getProp entry "Material"
  let quantity ← getProp entry "Quantity"
  let unit ← getProp entry "Unit"
  let vendorId ← getProp entry "VendorId"
  .ok (.obj [
    (utf16 "materialDoc", materialDoc),
    (utf16 "docYear", docYear),
    (utf16 "postDate", postDate),
    (utf16 "entryDate", entryDate),
    (utf16 "poNumber", poNumber),
    (utf16 "poItem", poItem),
    (utf16 "material", material),
    (utf16 "quantity", quantity),
    (utf16 "unit", unit),
    (utf16 "vendorId", vendorId)])

/-- The handler of `GET /goodsreceipt/:vendorId`. -/
def goodsReceipt (rt : Runtime) (cfg : Config) (vendorId : Option JSStr) : Handler :=
  .request
    (jsonGet cfg (template cfg.SAP_BASE_URL ++ utf16 "/ZATC_GOODSSet?$filter=(VendorId eq '"
      ++ template (paddedVendorId vendorId) ++ utf16 "')"))
    fun result => tryBlock rt "SAP Goods Receipt Error" result fun response =>
      let entries := resultsOrEmpty response
      if strictEq (getOwn entries (utf16 "length")) (.ofNat 0) then
        .ok (jsonReply 404 (.obj [(utf16 "message", .str (utf16 "No goods receipts found"))]))
      else do
        let goodsReceipts ← callMap entries goodsReceiptOf
        .ok (jsonReply 200 goodsReceipts)

/-- The record built for one entry of the invoice collection. -/
def invoiceOf (entry : JSVal) : Except JSErr JSVal := do
  let invoiceNo ← getProp entry "InvoiceNo"
  let invoiceDate ← getProp entry "InvoiceDate" >>= parseSapDate
  let totalAmount ← getProp entry "TotalAmount"
  let currency ← getProp entry "Currency"
  let paymentTerms ← getProp entry "PaymentTerms"
  let poNo ← getProp entry "PoNo"
  let poItem ← getProp entry "PoItem"
  let materialNo ← getProp entry "MaterialNo"
  let description ← getProp entry "Description"
  let quantity ← getProp entry "Quantity"
  let unitPrice ← getProp entry "UnitPrice"
  let unit ← getProp entry "Unit"
  .ok (.obj [
    (utf16 "invoiceNo", invoiceNo),
    (utf16 "invoiceDate", invoiceDate),
    (utf16 "totalAmount", totalAmount),
    (utf16 "currency", currency),
    (utf16 "paymentTerms", paymentTerms),
    (utf16 "poNo", poNo),
    (utf16 "poItem", poItem),
    (utf16 "materialNo", materialNo),
    (utf16 "description", description),
    (utf16 "quantity", quantity),
    (utf16 "unitPrice", unitPrice),
    (utf16 "unit", unit)])

/-- The handler of `GET /invoices/:vendorId`. -/
def invoices (rt : Runtime) (cfg : Config) (vendorId : Option JSStr) : Handler :=
  .request
    (jsonGet cfg (template cfg.SAP_BASE_URL
      ++ utf16 "/ZATC_INVOICETABLESet?$filter=(VendorId eq '"
      ++ template (paddedVendorId vendorId) ++ utf16 "')"))
    fun result => tryBlock rt "SAP Invoice Error" result fun response =>
      let entries := resultsOrEmpty response
      if strictEq (getOwn entries (utf16 "length")) (.ofNat 0) then
        .ok (jsonReply 404 (.obj [(utf16 "message", .str (utf16 "No invoices found"))]))
      else do
        let invoices ← callMap entries invoiceOf
        .ok (jsonReply 200 invoices)

/-- The test Node applies to a header value: every code unit is a tab or lies
in 32 to 126 or in 128 to 255. -/
def validHeaderValue (s : JSStr) : Bool :=
  s.all fun c =>
    c == 9 || (decide (32 ≤ c) && decide (c ≤ 126)) || (decide (128 ≤ c) && decide (c ≤ 255))

/-- The value `res.set(field, val)` stores: `String(val)`, element by element
for an array; a value with a forbidden character is refused with a
`TypeError`. -/
def headerValue (rt : Runtime) (val : JSVal) : Except JSErr JSVal :=
  match val with
  | .arr items => do
      let texts ← items.mapM (toStr rt)
      if texts.all validHeaderValue then .ok (.arr (texts.map .str))
      else .error .invalidHeaderChar
  | v => do
      let text ← toStr rt v
      if validHeaderValue text then .ok (.str text)
      else .error .invalidHeaderChar

/-- The call `res.set(fields)` with an object: the headers are set one by one
in the order of the object. The result is the list of headers that were set
and, when a value is refused, the exception that ended the call. -/
def setHeaders (rt : Runtime) : List (JSStr × JSVal) → List (JSStr × JSVal) × Option JSErr
  | [] => ([], none)
  | (field, val) :: rest =>
      match headerValue rt val with
      | .error e => ([], some e)
      | .ok value => ((field, value) :: (setHeaders rt rest).1, (setHeaders rt rest).2)

/-- The handler of `GET /invoice/:invoiceId`, the PDF download. The payload is
requested as an `arraybuffer`, so `response.data` is a buffer and its `length`
is its number of bytes. An exception of `res.set` is caught like any other of
the `try` block; the headers set before it stay on the reply. -/
def invoicePdf (rt : Runtime) (cfg : Config) (invoiceId : Option JSStr) : Handler :=
  .request
    ⟨template cfg.SAP_BASE_URL ++ utf16 "/ZATC_OINVSet('" ++ template invoiceId
        ++ utf16 "')/$value",
      cfg.SAP_USERNAME, cfg.SAP_PASSWORD, utf16 "application/pdf", .arraybuffer, false⟩
    fun result =>
      match result with
      | .rejected error => .replied (handleSapError error "SAP Invoice PDF Error")
      | .fulfilled response =>
          match getProp response.data "length" with
          | .error e =>
              .replied (handleSapError ⟨rt.errorMessage e, none⟩ "SAP Invoice PDF Error")
          | .ok length =>
              match setHeaders rt [
                (utf16 "Content-Type", .str (utf16 "application/pdf")),
                (utf16 "Content-Disposition",
                  .str (utf16 "attachment; filename=Invoice_" ++ template invoiceId
                    ++ utf16 ".pdf")),
                (utf16 "Content-Length", length)] with
              | (headers, none) => .replied ⟨200, headers, response.data, []⟩
              | (headers, some e) =>
                  .replied ⟨500, headers,
                    (handleSapError ⟨rt.errorMessage e, none⟩ "SAP Invoice PDF Error").body,
                    (handleSapError ⟨rt.errorMessage e, none⟩ "SAP Invoice PDF Error").log⟩

/-- The record built for one entry of the memo collection. -/
def memoOf (entry : JSVal) : Except JSErr JSVal := do
  let memoDoc ← getProp entry "MemoDoc"
  let docYear ← getProp entry "DocYear"
  let postingDate ← getProp entry "PostingDate" >>= parseSapDate
  let entryDate ← getProp entry "EntryDate" >>= parseSapDate
  let vendorId ← getProp entry "VendorId"
  let memoType ← getProp entry "MemoType"
  let amount ← getProp entry "Amount"
  let currency ← getProp entry "Currency"
  let referenceDocNo ← getProp entry "ReferenceDocNo"
  let docType ← getProp entry "DocType"
  let companyCode ← getProp entry "CompanyCode"
  .ok (.obj [
    (utf16 "memoDoc", memoDoc),
    (utf16 "docYear", docYear),
    (utf16 "postingDate", postingDate),
    (utf16 "entryDate", entryDate),
    (utf16 "vendorId", vendorId),
    (utf16 "memoType", memoType),
    (utf16 "amount", amount),
    (utf16 "currency", currency),
    (utf16 "referenceDocNo", referenceDocNo),
    (utf16 "docType", docType),
    (utf16 "companyCode", companyCode)])

/-- The handler of `GET /memos/:vendorId`. -/
def memos (rt : Runtime) (cfg : Config) (vendorId : Option JSStr) : Handler :=
  .request
    (jsonGet cfg (template cfg.SAP_BASE_URL ++ utf16 "/ZATC_MEMOSet?$filter=(VendorId eq '"
      ++ template (paddedVendorId vendorId) ++ utf16 "')"))
    fun result => tryBlock rt "SAP Memo Error" result fun response => do
      let entries := resultsOrEmpty response
      let memos ← callMap entries memoOf
      .ok (jsonReply 200 memos)

/-- The record built for one entry of the purchase-order collection. -/
def purchaseOrderOf (entry : JSVal) : Except JSErr JSVal := do
  let vendorId ← getProp entry "VendorId"
  let deliveryDate ← getProp entry "DeliveryDate" >>= parseSapDate
  let docDate ← getProp entry "DocDate" >>= parseSapDate
  let material ← getProp entry "Material"
  let unit ← getProp entry "Unit"
  let poNumber ← getProp entry "PoNumber"
  let itemNumber ← getProp entry "ItemNumber"
  .ok (.obj [
    (utf16 "vendorId", vendorId),
    (utf16 "deliveryDate", deliveryDate),
    (utf16 "docDate", docDate),
    (utf16 "material", material),
    (utf16 "unit", unit),
    (utf16 "poNumber", poNumber),
    (utf16 "itemNumber", itemNumber)])

/-- The handler of `GET /purchase-orders/:vendorId`. -/
def purchaseOrders (rt : Runtime) (cfg : Config) (vendorId : Option JSStr) : Handler :=
  .request
    (jsonGet cfg (template cfg.SAP_BASE_URL ++ utf16 "/ZATC_PURCHASESet?$filter=(VendorId eq '"
      ++ template (paddedVendorId vendorId) ++ utf16 "')"))
    fun result => tryBlock rt "SAP Purchase Order Error" result fun response => do
      let entries := resultsOrEmpty response
      let purchaseOrders ← callMap entries purchaseOrderOf
      .ok (jsonReply 200 purchaseOrders)

/-- One of the fixed records of the RFQ handler. -/
def rfqRecord (rfqNumber : String) : JSVal :=
  .obj [
    (utf16 "rfqNumber", .str (utf16 rfqNumber)),
    (utf16 "material", .str (utf16 "13")),
    (utf16 "description", .str (utf16 "Wood")),
    (utf16 "createdDate", .str (utf16 "May 30, 2025")),
    (utf16 "targetDate", .str (utf16 "Nov 30, 2025"))]

/-- The handler of `GET /rfq/:vendorId`: the upstream collection is read into
`entries` and not used; the reply is a fixed list of five records. -/
def rfq (rt : Runtime) (cfg : Config) (vendorId : Option JSStr) : Handler :=
  .request
    (jsonGet cfg (template cfg.SAP_BASE_URL ++ utf16 "/ZATC_RFQSet?$filter=(Lifnr eq '"
      ++ template (paddedVendorId vendorId) ++ utf16 "')"))
    fun result => tryBlock rt "SAP RFQ Error" result fun response =>
      let _entries := resultsOrEmpty response
      let rfqs := JSVal.arr [
        rfqRecord "6000000000",
        rfqRecord "6000000001",
        rfqRecord "6000000002",
        rfqRecord "6000000003",
        rfqRecord "6000000004"]
      .ok (jsonReply 200 rfqs)

/-- The record built for one entry of the aging collection. -/
def agingOf (entry : JSVal) : Except JSErr JSVal := do
  let paymentDoc ← getProp entry "PaymentDoc"
  let docYear ← getProp entry "DocYear"
  let paymentDate ← getProp entry "PaymentDate" >>= parseSapDate
  let entryDate ← getProp entry "EntryDate" >>= parseSapDate
  let vendorId ← getProp entry "VendorId"
  let amountPaid ← getProp entry "AmountPaid"
  let currency ← getProp entry "Currency"
  let dueDate ← getProp entry "DueDate" >>= parseSapDate
  let aging ← getProp entry "Aging"
  .ok (.obj [
    (utf16 "paymentDoc", paymentDoc),
    (utf16 "docYear", docYear),
    (utf16 "paymentDate", paymentDate),
    (utf16 "entryDate", entryDate),
    (utf16 "vendorId", vendorId),
    (utf16 "amountPaid", amountPaid),
    (utf16 "currency", currency),
    (utf16 "dueDate", dueDate),
    (utf16 "aging", aging)])

/-- The handler of `GET /aging/:vendorId`. -/
def aging (rt : Runtime) (cfg : Config) (vendorId : Option JSStr) : Handler :=
  .request
    (jsonGet cfg (template cfg.SAP_BASE_URL ++ utf16 "/ZATC_V_AGINGSet?$filter=(VendorId eq '"
      ++ template (paddedVendorId vendorId) ++ utf16 "')"))
    fun result => tryBlock rt "SAP Aging Error" result fun response => do
      let entries := resultsOrEmpty response
      let agingData ← callMap entries agingOf
      .ok (jsonReply 200 agingData)

/-- The routes of the service. -/
inductive Endpoint
  | login
  | profile
  | goodsReceipt
  | invoices
  | invoicePdf
  | memos
  | purchaseOrders
  | rfq
  | aging
  deriving DecidableEq

/-- An inbound request: the parsed body (read by the login route) and the
path parameter (read by all other routes). -/
structure Inbound where
  body : JSVal
  param : Option JSStr

/-- The route table: the handler registered for each endpoint. -/
def serve (rt : Runtime) (cfg : Config) (ep : Endpoint) (req : Inbound) : Handler :=
  match ep with
  | .login => login rt cfg req.body
  | .profile => profile rt cfg req.param
  | .goodsReceipt => goodsReceipt rt cfg req.param
  | .invoices => invoices rt cfg req.param
  | .invoicePdf => invoicePdf rt cfg req.param
  | .memos => memos rt cfg req.param
  | .purchaseOrders => purchaseOrders rt cfg req.param
  | .rfq => rfq rt cfg req.param
  | .aging => aging rt cfg req.param

/-! ## Delivery of a JSON reply

What the caller receives when a handler calls `res.status(status).json(body)`:
Express serialises the body with `JSON.stringify` and hands the text to
`res.send`. -/

mutual
/-- The value a caller reads back from the text `JSON.stringify(v)`, `none`
where `stringify` yields `undefined`. An infinite number is written `null`, a
buffer is written through its `toJSON` as an object with the fields `type` and
`data`. -/
def jsonView : JSVal → Option JSVal
  | .undefined => none
  | .null => some .null
  | .bool b => some (.bool b)
  | .num (.finite q) => some (.num (.finite q))
  | .num (.infinite _) => some .null
  | .str s => some (.str s)
  | .arr items => some (.arr (jsonItems items))
  | .obj fields => some (.obj (jsonFields fields))
  | .buffer bytes =>
      some (.obj [(utf16 "type", .str (utf16 "Buffer")),
                  (utf16 "data", .arr (bytes.map JSVal.ofNat))])
/-- The elements of an array in JSON: an element without a JSON form is
written `null`. -/
def jsonItems : List JSVal → List JSVal
  | [] => []
  | x :: rest =>
      (match jsonView x with
        | some v => v
        | none => .null) :: jsonItems rest
/-- The properties of an object in JSON: a property whose value has no JSON
form is left out. -/
def jsonFields : List (JSStr × JSVal) → List (JSStr × JSVal)
  | [] => []
  | (k, v) :: rest =>
      match jsonView v with
      | some w => (k, w) :: jsonFields rest
      | none => jsonFields rest
end

inductive Method
  | get
  | head
  | post
  deriving DecidableEq

/-- The circumstances of an exchange that delivery depends on: the request
method, whether the cache validators of the request match the reply (the
`If-None-Match` header against the entity tag Express computes), and whether
the installed Express empties the body of a 205 reply (4.18 and later do). -/
structure Exchange where
  method : Method
  validatorsMatch : Bool
  resetContentEmptied : Bool

/-- What the caller receives: the status and the JSON body as the caller
parses it, `none` when no body is sent. -/
structure Delivered where
  status : Nat
  body : Option JSVal

/-- The getter `req.fresh`: only a `GET` or `HEAD` request with matching
validators is fresh, and only for a reply of status 2xx or 304. -/
def fresh (x : Exchange) (status : Nat) : Bool :=
  (x.method == .get || x.method == .head)
    && ((decide (200 ≤ status) && decide (status < 300)) || status == 304)
    && x.validatorsMatch

/-- The delivery of `res.status(r.status).json(r.body)`. A status outside 100
to 999 is refused with a `RangeError`. A fresh request is answered 304. No
body goes out with a status 1xx, 204 or 304, nor in answer to a `HEAD`
request. -/
def sendJson (x : Exchange) (r : Reply) : Except JSErr Delivered :=
  if r.status < 100 ∨ 999 < r.status then .error .invalidStatus
  else
    let status := if fresh x r.status then 304 else r.status
    if (100 ≤ status ∧ status ≤ 199) ∨ status = 204 ∨ status = 304 then .ok ⟨status, none⟩
    else if status = 205 ∧ x.resetContentEmptied = true then .ok ⟨status, none⟩
    else if x.method = .head then .ok ⟨status, none⟩
    else .ok ⟨status, jsonView r.body⟩

/-! ## Vocabulary of the stated properties -/

/-- The URLs requested by the seven handlers that pad the vendor identifier,
in the order of the source text. -/
def vendorUrls (rt : Runtime) (cfg : Config) (vendorId : Option JSStr) : List JSStr :=
  ((profile rt cfg vendorId).calls ++ (goodsReceipt rt cfg vendorId).calls
    ++ (invoices rt cfg vendorId).calls ++ (memos rt cfg vendorId).calls
    ++ (purchaseOrders rt cfg vendorId).calls ++ (rfq rt cfg vendorId).calls
    ++ (aging rt cfg vendorId).calls).map fun req => req.url

/-- The seven upstream queries with the identifier `id` substituted into the
query templates. -/
def queriesFor (cfg : Config) (id : JSStr) : List JSStr :=
  [ template cfg.SAP_BASE_URL ++ utf16 "/ZATC_VENDORPROFILESet(VendorId='" ++ id ++ utf16 "')",
    template cfg.SAP_BASE_URL ++ utf16 "/ZATC_GOODSSet?$filter=(VendorId eq '" ++ id ++ utf16 "')",
    template cfg.SAP_BASE_URL ++ utf16 "/ZATC_INVOICETABLESet?$filter=(VendorId eq '" ++ id
      ++ utf16 "')",
    template cfg.SAP_BASE_URL ++ utf16 "/ZATC_MEMOSet?$filter=(VendorId eq '" ++ id ++ utf16 "')",
    template cfg.SAP_BASE_URL ++ utf16 "/ZATC_PURCHASESet?$filter=(VendorId eq '" ++ id
      ++ utf16 "')",
    template cfg.SAP_BASE_URL ++ utf16 "/ZATC_RFQSet?$filter=(Lifnr eq '" ++ id ++ utf16 "')",
    template cfg.SAP_BASE_URL ++ utf16 "/ZATC_V_AGINGSet?$filter=(VendorId eq '" ++ id
      ++ utf16 "')" ]

/-- The collection `d.results` of an upstream body is empty or absent. -/
def EmptyOrAbsent (data : JSVal) : Prop :=
  optProp (optProp data "d") "results" = .undefined
    ∨ optProp (optProp data "d") "results" = .null
    ∨ optProp (optProp data "d") "results" = .arr []

/-- The `details` field of a reply body. -/
def detailsOf (r : Reply) : JSVal := getOwn r.body (utf16 "details")

/-- A runtime for concrete evaluations; the texts it prints play no part in
any evaluated result. -/
def sampleRuntime : Runtime :=
  ⟨fun _ => utf16 "0", fun _ => [], fun _ => utf16 "error"⟩

/-- A configuration for concrete evaluations. -/
def sampleConfig : Config :=
  ⟨some (utf16 "user"), some (utf16 "pass"), some (utf16 "https://sap.example/odata")⟩

/-- A login body for concrete evaluations: vendor `100000` and the given
password. -/
def sampleBody (password : String) : JSVal :=
  .obj [(utf16 "lifnr", .str (utf16 "100000")), (utf16 "password", .str (utf16 password))]

/-- An upstream login response whose record stores the password `secret`. -/
def secretRecord : UpstreamResponse :=
  ⟨200, .str (utf16 "OK"), .obj [(utf16 "d", .obj [(utf16 "Password", .str (utf16 "secret"))])]⟩

/-- The string `s` contains an occurrence of the epoch pattern: the text
`/Date(`, one or more decimal digits, and the text `)/`. -/
def ContainsEpochPattern (s : JSStr) : Prop :=
  ∃ before digits after, digits ≠ [] ∧ (∀ c ∈ digits, isDigit c = true)
    ∧ s = before ++ (utf16 "/Date(" ++ digits ++ utf16 ")/") ++ after

/-- The compact form `s[0..4] + "-" + s[4..6] + "-" + s[6..8]` of a string,
by plain slicing. -/
def dashed (s : JSStr) : JSStr :=
  s.take 4 ++ utf16 "-" ++ (s.drop 4).take 2 ++ utf16 "-" ++ (s.drop 6).take 2

/-! ### The civil calendar, as the property of dates is worded -/

/-- The leap-year rule of the Gregorian calendar. -/
def isLeapYear (y : Nat) : Bool :=
  decide (y % 4 = 0) && (decide (y % 100 ≠ 0) || decide (y % 400 = 0))

/-- Number of days of month `m` (1 to 12) of year `y`. -/
def daysInMonth (y m : Nat) : Nat :=
  match m with
  | 1 => 31
  | 2 => if isLeapYear y then 29 else 28
  | 3 => 31
  | 4 => 30
  | 5 => 31
  | 6 => 30
  | 7 => 31
  | 8 => 31
  | 9 => 30
  | 10 => 31
  | 11 => 30
  | 12 => 31
  | _ => 0

/-- Days from 1 January 1970 to 1 January of year `y`: the lengths of the
years in between, added up. -/
def daysBeforeYear (y : Nat) : Nat :=
  Finset.sum (Finset.Ico 1970 y) fun k => if isLeapYear k then 366 else 365

/-- Days from 1 January of year `y` to the first day of its month `m`. -/
def daysBeforeMonth (y m : Nat) : Nat :=
  Finset.sum (Finset.Ico 1 m) fun j => daysInMonth y j

/-- The calendar date `y-m-d` is the UTC date of the instant `t` milliseconds
after the Unix epoch: it is a date of the calendar (from 1970 on), and the
number of whole days between 1 January 1970 and it is the number of whole
days in `t`. -/
def IsUTCDateOf (t y m d : Nat) : Prop :=
  1970 ≤ y ∧ 1 ≤ m ∧ m ≤ 12 ∧ 1 ≤ d ∧ d ≤ daysInMonth y m
    ∧ daysBeforeYear y + daysBeforeMonth y m + (d - 1) = t / 86400000

/-- The string `r` has the shape `YYYY-MM-DD` (four, two and two decimal
digits between hyphens) and its three groups of digits read `y`, `m`, `d`. -/
def IsoDate (r : JSStr) (y m d : Nat) : Prop :=
  ∃ y1 y2 y3 y4 m1 m2 d1 d2 : Nat,
    y1 < 10 ∧ y2 < 10 ∧ y3 < 10 ∧ y4 < 10 ∧ m1 < 10 ∧ m2 < 10 ∧ d1 < 10 ∧ d2 < 10
    ∧ r = [48 + y1, 48 + y2, 48 + y3, 48 + y4, 45, 48 + m1, 48 + m2, 45, 48 + d1, 48 + d2]
    ∧ y = 1000 * y1 + 100 * y2 + 10 * y3 + y4 ∧ m = 10 * m1 + m2 ∧ d = 10 * d1 + d2

mutual
/-- The value is a JSON value with finite numbers: it holds no `undefined`, no
infinity and no buffer. -/
def isJson : JSVal → Bool
  | .undefined => false
  | .null => true
  | .bool _ => true
  | .num (.finite _) => true
  | .num (.infinite _) => false
  | .str _ => true
  | .arr items => allJson items
  | .obj fields => allJsonFields fields
  | .buffer _ => false
/-- Every element is such a JSON value. -/
def allJson : List JSVal → Bool
  | [] => true
  | x :: rest => isJson x && allJson rest
/-- Every property value is such a JSON value. -/
def allJsonFields : List (JSStr × JSVal) → Bool
  | [] => true
  | (_, v) :: rest => isJson v && allJsonFields rest
end

/-- The vendor identifier of a login body cannot be written into the URL: it
is an object with an own property `toString`. -/
def unprintableBody : JSVal :=
  .obj [(utf16 "lifnr", .obj [(utf16 "toString", .ofNat 1)]),
        (utf16 "password", .str (utf16 "secret"))]

/-- An upstream body for concrete evaluations, the JSON object with the one
property `msg` of value `down`. -/
def downBody : JSVal := .obj [(utf16 "msg", .str (utf16 "down"))]

/-! # Properties -/

/-! ## Login -/

theorem getProp_ok_all (body : JSVal) (key : String) (v : JSVal)
    (h : getProp body key = .ok v) (key2 : String) :
    getProp body key2 = .ok (getOwn body (utf16 key2)) := by
  cases body <;> simp_all [getProp]

theorem truthy_str_of_ne_nil (s : JSStr) (h : s ≠ []) : truthy (.str s) = true := by
  cases s with
  | nil => exact absurd rfl h
  | cons c cs => rfl

theorem login_continues (rt : Runtime) (cfg : Config) (body lifnr password : JSVal) (id : JSStr)
    (hl : getProp body "lifnr" = .ok lifnr) (hlt : truthy lifnr = true)
    (hid : toStr rt lifnr = .ok id)
    (hp : getProp body "password" = .ok password) (hpt : truthy password = true)
    (result : UpstreamResult) :
    (login rt cfg body).outcome result =
      tryBlock rt "SAP Login Error" result (loginCheck password) := by
  unfold login
  rw [hl, hp]
  simp only [hlt, hpt, hid, Bool.not_true, Bool.or_self, Bool.false_eq_true, if_false]
  rfl

/-- C1 (as amended). For a request whose `lifnr` is truthy and can be written
into the URL (its conversion to a string, `toStr`, succeeds with some text
`id`) and whose supplied password is a non-empty string `pw`, and an upstream
record whose stored `Password` is the string `p`: the login handler answers
200 when `pw = p` and 401 when `pw ≠ p`; the comparison is equality of
strings. -/
theorem login_password_check (rt : Runtime) (cfg : Config) (body lifnr : JSVal)
    (id pw p : JSStr) (record : List (JSStr × JSVal)) (response : UpstreamResponse)
    (hl : getProp body "lifnr" = .ok lifnr) (hlt : truthy lifnr = true)
    (hid : toStr rt lifnr = .ok id)
    (hp : getProp body "password" = .ok (.str pw)) (hpw : pw ≠ [])
    (hd : optProp response.data "d" = .obj record)
    (hs : lookup (utf16 "Password") record = .str p) :
    (pw = p → (login rt cfg body).outcome (.fulfilled response) =
        .replied (jsonReply 200 (.obj [(utf16 "message", .str (utf16 "Login successful"))])))
    ∧ (pw ≠ p → (login rt cfg body).outcome (.fulfilled response) =
        .replied (jsonReply 401 (.obj [(utf16 "message", .str (utf16 "Invalid password"))]))) := by
  have hrun := login_continues rt cfg body lifnr (.str pw) id hl hlt hid hp
    (truthy_str_of_ne_nil pw hpw) (.fulfilled response)
  rw [hrun]
  constructor
  · intro h
    subst h
    simp [tryBlock, loginCheck, hd, truthy, getProp, getOwn, hs, strictEq, bind, Except.bind]
  · intro h
    have h2 : ¬ p = pw := fun e => h e.symm
    simp [tryBlock, loginCheck, hd, truthy, getProp, getOwn, hs, strictEq, h2, bind, Except.bind]

/-- Witness of `login_password_check`: stored password `secret`, supplied
`secret` and supplied `Secret`. -/
theorem login_password_check_witness :
    (login sampleRuntime sampleConfig (sampleBody "secret")).outcome (.fulfilled secretRecord) =
      .replied (jsonReply 200 (.obj [(utf16 "message", .str (utf16 "Login successful"))]))
    ∧ (login sampleRuntime sampleConfig (sampleBody "Secret")).outcome (.fulfilled secretRecord) =
      .replied (jsonReply 401 (.obj [(utf16 "message", .str (utf16 "Invalid password"))])) :=
  ⟨(login_password_check sampleRuntime sampleConfig (sampleBody "secret")
      (.str (utf16 "100000")) (utf16 "100000") (utf16 "secret") (utf16 "secret")
      [(utf16 "Password", .str (utf16 "secret"))] secretRecord
      rfl rfl rfl rfl (by decide) rfl rfl).1 rfl,
   (login_password_check sampleRuntime sampleConfig (sampleBody "Secret")
      (.str (utf16 "100000")) (utf16 "100000") (utf16 "Secret") (utf16 "secret")
      [(utf16 "Password", .str (utf16 "secret"))] secretRecord
      rfl rfl rfl rfl (by decide) rfl rfl).2 (by decide)⟩

/-- C1 (counterexample). With the stored password `secret`, the supplied
password string `""` differs from it, yet the handler answers 400, not 401,
and makes no upstream call. -/
theorem login_empty_password_is_400 :
    utf16 "" ≠ utf16 "secret"
    ∧ (login sampleRuntime sampleConfig (sampleBody "")).outcome (.fulfilled secretRecord) =
      .replied (jsonReply 400
        (.obj [(utf16 "error", .str (utf16 "Lifnr and password are required"))]))
    ∧ (login sampleRuntime sampleConfig (sampleBody "")).calls = [] :=
  ⟨by decide, rfl, rfl⟩

/-- Beyond C1: a vendor identifier that cannot be written into the URL (an
object with an own property `toString`) ends the login handler with an
uncaught `TypeError`, whatever the password; no upstream call is made. -/
theorem login_unprintable_lifnr :
    login sampleRuntime sampleConfig unprintableBody = .finish (.uncaught .noPrimitive)
      ∧ truthy (getOwn unprintableBody (utf16 "lifnr")) = true :=
  ⟨rfl, rfl⟩

/-- C2. When `lifnr` or `password` is missing from the request body, the login
handler answers 400 at once: it finishes without building or sending an
outbound request. -/
theorem login_presence_check (rt : Runtime) (cfg : Config) (body : JSVal)
    (h : getProp body "lifnr" = .ok .undefined ∨ getProp body "password" = .ok .undefined) :
    login rt cfg body = .finish (.replied (jsonReply 400
        (.obj [(utf16 "error", .str (utf16 "Lifnr and password are required"))])))
      ∧ (login rt cfg body).calls = [] := by
  have h1 : getProp body "lifnr" = .ok (getOwn body (utf16 "lifnr")) := by
    rcases h with h | h <;> exact getProp_ok_all body _ _ h _
  have h2 : getProp body "password" = .ok (getOwn body (utf16 "password")) := by
    rcases h with h | h <;> exact getProp_ok_all body _ _ h _
  have h3 : (!truthy (getOwn body (utf16 "lifnr"))
      || !truthy (getOwn body (utf16 "password"))) = true := by
    rcases h with h | h
    · rw [h1] at h
      injection h with h
      simp [h, truthy]
    · rw [h2] at h
      injection h with h
      simp [h, truthy]
  have key : login rt cfg body = .finish (.replied (jsonReply 400
        (.obj [(utf16 "error", .str (utf16 "Lifnr and password are required"))]))) := by
    unfold login
    rw [h1, h2]
    simp only [h3, if_true]
  rw [key]
  exact ⟨rfl, rfl⟩

/-- Witness of `login_presence_check`: a body with a vendor identifier and no
password. -/
theorem login_presence_check_witness :
    login sampleRuntime sampleConfig (.obj [(utf16 "lifnr", .str (utf16 "100000"))]) =
        .finish (.replied (jsonReply 400
          (.obj [(utf16 "error", .str (utf16 "Lifnr and password are required"))])))
      ∧ (login sampleRuntime sampleConfig
          (.obj [(utf16 "lifnr", .str (utf16 "100000"))])).calls = [] :=
  login_presence_check sampleRuntime sampleConfig _ (Or.inr rfl)

/-! ## Vendor-identifier padding -/

theorem flatten_replicate_single (n c : Nat) :
    (List.replicate n [c]).flatten = List.replicate n c := by
  induction n with
  | zero => rfl
  | succ n ih => simp [List.replicate_succ, ih]

theorem padStart_zero_short (s : JSStr) (h : s.length ≤ 10) :
    padStart s 10 (utf16 "0") = List.replicate (10 - s.length) 48 ++ s := by
  have hz : utf16 "0" = [48] := rfl
  rw [hz]
  unfold padStart
  by_cases h10 : 10 ≤ s.length
  · have : s.length = 10 := by omega
    simp [this]
  · simp [h10, flatten_replicate_single]

theorem padStart_zero_long (s : JSStr) (h : 10 < s.length) :
    padStart s 10 (utf16 "0") = s := by
  unfold padStart
  have : 10 ≤ s.length := by omega
  simp [this]

theorem vendorUrls_eq (rt : Runtime) (cfg : Config) (id : JSStr) :
    vendorUrls rt cfg (some id) = queriesFor cfg (padStart id 10 (utf16 "0")) := rfl

/-- C3. For an identifier of at most 10 code units, the identifier
substituted into every upstream query is the input left-padded with `0` to
exactly 10 code units; a longer identifier is substituted unchanged. -/
theorem vendorId_padding (rt : Runtime) (cfg : Config) (id : JSStr) :
    (id.length ≤ 10 →
      vendorUrls rt cfg (some id) = queriesFor cfg (List.replicate (10 - id.length) 48 ++ id)
        ∧ (List.replicate (10 - id.length) 48 ++ id).length = 10)
    ∧ (10 < id.length → vendorUrls rt cfg (some id) = queriesFor cfg id) := by
  constructor
  · intro h
    rw [vendorUrls_eq, padStart_zero_short id h]
    refine ⟨rfl, ?_⟩
    simp
    omega
  · intro h
    rw [vendorUrls_eq, padStart_zero_long id h]

/-- Witness of `vendorId_padding`: the identifiers `4711` and `12345678901`. -/
theorem vendorId_padding_witness :
    (vendorUrls sampleRuntime sampleConfig (some (utf16 "4711"))
        = queriesFor sampleConfig (utf16 "0000004711")
      ∧ (utf16 "0000004711").length = 10)
    ∧ vendorUrls sampleRuntime sampleConfig (some (utf16 "12345678901"))
        = queriesFor sampleConfig (utf16 "12345678901") :=
  ⟨(vendorId_padding sampleRuntime sampleConfig (utf16 "4711")).1 (by decide),
   (vendorId_padding sampleRuntime sampleConfig (utf16 "12345678901")).2 (by decide)⟩

/-! ## Empty collections -/

theorem resultsOrEmpty_of_emptyOrAbsent (response : UpstreamResponse)
    (h : EmptyOrAbsent response.data) : resultsOrEmpty response = .arr [] := by
  unfold resultsOrEmpty
  rcases h with h | h | h <;> simp [h, truthy]

/-- C8. When the upstream call succeeds and the collection `d.results` of its
body is empty or absent, the goods-receipt and invoices handlers answer 404,
and the memos, purchase-orders and aging handlers answer 200 with an empty
array. -/
theorem empty_collection_semantics (rt : Runtime) (cfg : Config) (vendorId : Option JSStr)
    (response : UpstreamResponse) (h : EmptyOrAbsent response.data) :
    (goodsReceipt rt cfg vendorId).outcome (.fulfilled response) =
        .replied (jsonReply 404
          (.obj [(utf16 "message", .str (utf16 "No goods receipts found"))]))
    ∧ (invoices rt cfg vendorId).outcome (.fulfilled response) =
        .replied (jsonReply 404 (.obj [(utf16 "message", .str (utf16 "No invoices found"))]))
    ∧ (memos rt cfg vendorId).outcome (.fulfilled response) = .replied (jsonReply 200 (.arr []))
    ∧ (purchaseOrders rt cfg vendorId).outcome (.fulfilled response) =
        .replied (jsonReply 200 (.arr []))
    ∧ (aging rt cfg vendorId).outcome (.fulfilled response) =
        .replied (jsonReply 200 (.arr [])) := by
  have he := resultsOrEmpty_of_emptyOrAbsent response h
  refine ⟨?_, ?_, ?_, ?_, ?_⟩
  · simp only [goodsReceipt, Handler.outcome, tryBlock, he]
    rfl
  · simp only [invoices, Handler.outcome, tryBlock, he]
    rfl
  · simp only [memos, Handler.outcome, tryBlock, he]
    rfl
  · simp only [purchaseOrders, Handler.outcome, tryBlock, he]
    rfl
  · simp only [aging, Handler.outcome, tryBlock, he]
    rfl

/-- Witness of `empty_collection_semantics`: an upstream body whose `results`
is the empty array. -/
theorem empty_collection_semantics_witness :
    (goodsReceipt sampleRuntime sampleConfig (some (utf16 "4711"))).outcome
        (.fulfilled ⟨200, .str (utf16 "OK"), .obj [(utf16 "d", .obj [(utf16 "results", .arr [])])]⟩)
      = .replied (jsonReply 404
          (.obj [(utf16 "message", .str (utf16 "No goods receipts found"))]))
    ∧ (memos sampleRuntime sampleConfig (some (utf16 "4711"))).outcome
        (.fulfilled ⟨200, .str (utf16 "OK"), .obj [(utf16 "d", .obj [(utf16 "results", .arr [])])]⟩)
      = .replied (jsonReply 200 (.arr [])) :=
  have h := empty_collection_semantics sampleRuntime sampleConfig (some (utf16 "4711"))
    ⟨200, .str (utf16 "OK"), .obj [(utf16 "d", .obj [(utf16 "results", .arr [])])]⟩
    (Or.inr (Or.inr rfl))
  ⟨h.1, h.2.2.1⟩

/-! ## Error Normalizer -/

/-- Every route that made its outbound call hands a rejected call to
`handleSapError`, under its own context label. -/
theorem outcome_rejected (rt : Runtime) (cfg : Config) (ep : Endpoint) (req : Inbound)
    (error : Failure) (h : (serve rt cfg ep req).calls ≠ []) :
    ∃ context, (serve rt cfg ep req).outcome (.rejected error)
      = .replied (handleSapError error context) := by
  cases ep
  case login =>
    simp only [serve] at h ⊢
    generalize hb : login rt cfg req.body = prog at h ⊢
    unfold login at hb
    split at hb
    · subst hb; simp [Handler.calls] at h
    · subst hb; simp [Handler.calls] at h
    · split at hb
      · subst hb; simp [Handler.calls] at h
      · split at hb
        · subst hb; simp [Handler.calls] at h
        · subst hb
          exact ⟨"SAP Login Error", rfl⟩
  case profile => exact ⟨"SAP Profile Error", rfl⟩
  case goodsReceipt => exact ⟨"SAP Goods Receipt Error", rfl⟩
  case invoices => exact ⟨"SAP Invoice Error", rfl⟩
  case invoicePdf => exact ⟨"SAP Invoice PDF Error", rfl⟩
  case memos => exact ⟨"SAP Memo Error", rfl⟩
  case purchaseOrders => exact ⟨"SAP Purchase Order Error", rfl⟩
  case rfq => exact ⟨"SAP RFQ Error", rfl⟩
  case aging => exact ⟨"SAP Aging Error", rfl⟩

/-! ## Delivery of the error envelope -/

mutual
theorem jsonView_of_isJson : ∀ v : JSVal, isJson v = true → jsonView v = some v
  | .undefined, h => by simp [isJson] at h
  | .null, _ => by simp [jsonView]
  | .bool _, _ => by simp [jsonView]
  | .num (.finite _), _ => by simp [jsonView]
  | .num (.infinite _), h => by simp [isJson] at h
  | .str _, _ => by simp [jsonView]
  | .arr items, h => by
      simp only [isJson] at h
      simp [jsonView, jsonItems_of_allJson items h]
  | .obj fields, h => by
      simp only [isJson] at h
      simp [jsonView, jsonFields_of_allJsonFields fields h]
  | .buffer _, h => by simp [isJson] at h
theorem jsonItems_of_allJson : ∀ items : List JSVal, allJson items = true → jsonItems items = items
  | [], _ => by simp [jsonItems]
  | x :: rest, h => by
      simp only [allJson, Bool.and_eq_true] at h
      simp [jsonItems, jsonView_of_isJson x h.1, jsonItems_of_allJson rest h.2]
theorem jsonFields_of_allJsonFields : ∀ fields : List (JSStr × JSVal),
    allJsonFields fields = true → jsonFields fields = fields
  | [], _ => by simp [jsonFields]
  | (k, v) :: rest, h => by
      simp only [allJsonFields, Bool.and_eq_true] at h
      simp [jsonFields, jsonView_of_isJson v h.1, jsonFields_of_allJsonFields rest h.2]
end

/-- The `details` field a caller reads from the delivered error envelope is
the JSON form of the upstream body. -/
theorem details_of_envelope (label : JSStr) (statusText b : JSVal) :
    ∃ body, jsonView (.obj [(utf16 "error", .str label), (utf16 "statusText", statusText),
        (utf16 "details", b)]) = some body
      ∧ getOwn body (utf16 "details") = (jsonView b).getD .undefined := by
  have k1 : ¬ utf16 "error" = utf16 "details" := by decide
  have k2 : ¬ utf16 "statusText" = utf16 "details" := by decide
  refine ⟨_, rfl, ?_⟩
  cases hs : jsonView statusText <;> cases hb : jsonView b <;>
    simp [jsonFields, jsonView, getOwn, lookup, hs, hb, k1, k2]

/-- The delivery of a reply whose status is one that axios rejects. -/
theorem sendJson_rejected_status (x : Exchange) (r : Reply) (h300 : 300 ≤ r.status)
    (h999 : r.status ≤ 999) :
    ∃ d, sendJson x r = .ok d ∧ d.status = r.status
      ∧ (r.status ≠ 304 → x.method ≠ .head → d.body = jsonView r.body) := by
  have hf : (if fresh x r.status = true then 304 else r.status) = r.status := by
    by_cases h304 : r.status = 304
    · simp [h304]
    · have : fresh x r.status = false := by
        have h1 : ¬ r.status < 300 := by omega
        simp [fresh, h1, h304]
      simp [this]
  unfold sendJson
  simp only [hf]
  rw [if_neg (by omega)]
  by_cases h304 : r.status = 304
  · rw [if_pos (Or.inr (Or.inr h304))]
    exact ⟨_, rfl, rfl, fun h => absurd h304 h⟩
  · rw [if_neg (by omega), if_neg (by omega)]
    by_cases hh : x.method = .head
    · rw [if_pos hh]
      exact ⟨_, rfl, rfl, fun _ h => absurd hh h⟩
    · rw [if_neg hh]
      exact ⟨_, rfl, rfl, fun _ _ => rfl⟩

/-- C9 (as amended). For a failed outbound call that carries an upstream
response with status `s` (a status axios rejects, 300 to 999) and body `b`,
`handleSapError` calls `res.status(s).json` with a body whose `details` field
is `b`, on every route that made the call. The caller receives status `s`
and, unless `s` is 304 or the request is a `HEAD` request, a JSON body whose
`details` field is the JSON form of `b`: `b` itself when `b` is a JSON value. -/
theorem upstream_error_propagation (rt : Runtime) (cfg : Config) (message : JSStr) (s : Nat)
    (statusText b : JSVal) (h300 : 300 ≤ s) (h999 : s ≤ 999) :
    (∀ context, (handleSapError ⟨message, some ⟨s, statusText, b⟩⟩ context).status = s
        ∧ detailsOf (handleSapError ⟨message, some ⟨s, statusText, b⟩⟩ context) = b)
    ∧ (∀ ep req, (serve rt cfg ep req).calls ≠ [] →
        ∃ r, (serve rt cfg ep req).outcome (.rejected ⟨message, some ⟨s, statusText, b⟩⟩)
            = .replied r ∧ r.status = s ∧ detailsOf r = b
          ∧ ∀ x : Exchange, ∃ d, sendJson x r = .ok d ∧ d.status = s
              ∧ (s ≠ 304 → x.method ≠ .head →
                  ∃ body, d.body = some body
                    ∧ getOwn body (utf16 "details") = (jsonView b).getD .undefined
                    ∧ (isJson b = true → getOwn body (utf16 "details") = b))) := by
  have hfun : ∀ context, (handleSapError ⟨message, some ⟨s, statusText, b⟩⟩ context).status = s
      ∧ detailsOf (handleSapError ⟨message, some ⟨s, statusText, b⟩⟩ context) = b :=
    fun _ => ⟨rfl, rfl⟩
  refine ⟨hfun, ?_⟩
  intro ep req h
  obtain ⟨context, hc⟩ := outcome_rejected rt cfg ep req ⟨message, some ⟨s, statusText, b⟩⟩ h
  refine ⟨_, hc, (hfun context).1, (hfun context).2, ?_⟩
  intro x
  obtain ⟨d, hd, hst, hbody⟩ := sendJson_rejected_status x
    (handleSapError ⟨message, some ⟨s, statusText, b⟩⟩ context) h300 h999
  refine ⟨d, hd, hst, ?_⟩
  intro h304 hhead
  obtain ⟨body, hj, hdet⟩ := details_of_envelope (utf16 context) statusText b
  refine ⟨body, ?_, hdet, ?_⟩
  · rw [hbody h304 hhead]
    exact hj
  · intro hjson
    rw [hdet, jsonView_of_isJson b hjson]
    rfl

/-- Witness of `upstream_error_propagation`: upstream status 503 with the body
`msg: down`, on the profile route, for a `GET` request. -/
theorem upstream_error_propagation_witness :
    ∃ r, (serve sampleRuntime sampleConfig .profile ⟨.undefined, some (utf16 "4711")⟩).outcome
          (.rejected ⟨utf16 "Request failed with status code 503",
            some ⟨503, .str (utf16 "Service Unavailable"), downBody⟩⟩) = .replied r
      ∧ r.status = 503 ∧ detailsOf r = downBody
      ∧ ∃ d, sendJson ⟨.get, false, true⟩ r = .ok d ∧ d.status = 503
          ∧ ∃ body, d.body = some body ∧ getOwn body (utf16 "details") = downBody := by
  obtain ⟨r, h1, h2, h3, h4⟩ := (upstream_error_propagation sampleRuntime sampleConfig
    (utf16 "Request failed with status code 503") 503 (.str (utf16 "Service Unavailable"))
    downBody (by decide) (by decide)).2 .profile ⟨.undefined, some (utf16 "4711")⟩
    (by simp [serve, profile, Handler.calls])
  obtain ⟨d, h5, h6, h7⟩ := h4 ⟨.get, false, true⟩
  obtain ⟨body, h8, _, h10⟩ := h7 (by decide) (by decide)
  exact ⟨r, h1, h2, h3, d, h5, h6, body, h8, h10 rfl⟩

/-- C9 (counterexample). With upstream status 304 and body `msg: down`, the
caller of the profile route receives status 304 and no body at all; on the
PDF route the upstream body is a buffer, and the `details` the caller
receives for status 503 is the JSON object written for the buffer, not the
buffer. -/
theorem upstream_304_has_no_body :
    (∃ r, (serve sampleRuntime sampleConfig .profile ⟨.undefined, some (utf16 "4711")⟩).outcome
          (.rejected ⟨utf16 "Request failed with status code 304",
            some ⟨304, .str (utf16 "Not Modified"), downBody⟩⟩) = .replied r
      ∧ sendJson ⟨.get, false, true⟩ r = .ok ⟨304, none⟩)
    ∧ (∃ r body, (serve sampleRuntime sampleConfig .invoicePdf
            ⟨.undefined, some (utf16 "90000001")⟩).outcome
          (.rejected ⟨utf16 "Request failed with status code 503",
            some ⟨503, .str (utf16 "Service Unavailable"), .buffer [100, 111, 119, 110]⟩⟩)
            = .replied r
      ∧ sendJson ⟨.get, false, true⟩ r = .ok ⟨503, some body⟩
      ∧ getOwn body (utf16 "details") =
          .obj [(utf16 "type", .str (utf16 "Buffer")),
                (utf16 "data", .arr [.ofNat 100, .ofNat 111, .ofNat 119, .ofNat 110])]) :=
  ⟨⟨_, rfl, rfl⟩, ⟨_, _, rfl, rfl, rfl⟩⟩

/-- Beyond C9: the PDF handler answers 500 when the invoice identifier puts a
forbidden character, here a line feed, into the `Content-Disposition` header;
the `Content-Type` header set before the failure stays on the reply. -/
theorem invoicePdf_refused_header :
    ∃ body log, (invoicePdf sampleRuntime sampleConfig (some [97, 10, 98])).outcome
        (.fulfilled ⟨200, .str (utf16 "OK"), .buffer [37, 80, 68, 70]⟩)
      = .replied ⟨500, [(utf16 "Content-Type", .str (utf16 "application/pdf"))], body, log⟩ :=
  ⟨_, _, rfl⟩

/-- Beyond C9: for a well-formed invoice identifier the PDF handler answers
200 with the three headers, the length header being the byte count. -/
theorem invoicePdf_headers :
    (invoicePdf sampleRuntime sampleConfig (some (utf16 "90000001"))).outcome
        (.fulfilled ⟨200, .str (utf16 "OK"), .buffer [37, 80, 68, 70]⟩)
      = .replied ⟨200,
          [(utf16 "Content-Type", .str (utf16 "application/pdf")),
           (utf16 "Content-Disposition",
              .str (utf16 "attachment; filename=Invoice_90000001.pdf")),
           (utf16 "Content-Length", .str (sampleRuntime.numberToString (.finite 4)))],
          .buffer [37, 80, 68, 70], []⟩ :=
  rfl

/-- C10 (as amended). On every route, an outbound call that fails before any
upstream response is received is answered with status 500 and a body whose
`details` field is the failure message, which is non-empty whenever that
message is. -/
theorem upstream_unreachable (rt : Runtime) (cfg : Config) (ep : Endpoint) (req : Inbound)
    (message : JSStr) (h : (serve rt cfg ep req).calls ≠ []) :
    ∃ r, (serve rt cfg ep req).outcome (.rejected ⟨message, none⟩) = .replied r
      ∧ r.status = 500 ∧ detailsOf r = .str message
      ∧ (message ≠ [] → detailsOf r ≠ .str []) := by
  obtain ⟨context, hc⟩ := outcome_rejected rt cfg ep req ⟨message, none⟩ h
  refine ⟨_, hc, rfl, rfl, ?_⟩
  intro hm hd
  have : detailsOf (handleSapError ⟨message, none⟩ context) = .str message := rfl
  rw [this] at hd
  injection hd with hd
  exact hm hd

/-- Witness of `upstream_unreachable`: a refused connection on the aging
route. -/
theorem upstream_unreachable_witness :
    ∃ r, (serve sampleRuntime sampleConfig .aging ⟨.undefined, some (utf16 "4711")⟩).outcome
          (.rejected ⟨utf16 "connect ECONNREFUSED", none⟩) = .replied r
      ∧ r.status = 500 ∧ detailsOf r = .str (utf16 "connect ECONNREFUSED")
      ∧ (utf16 "connect ECONNREFUSED" ≠ [] → detailsOf r ≠ .str []) :=
  upstream_unreachable sampleRuntime sampleConfig .aging ⟨.undefined, some (utf16 "4711")⟩
    (utf16 "connect ECONNREFUSED") (by simp [serve, aging, Handler.calls])

/-- C10 (counterexample). A call that fails without a response and with an
empty failure message is answered with status 500 and an empty `details`. -/
theorem upstream_unreachable_empty_details :
    (serve sampleRuntime sampleConfig .profile ⟨.undefined, some (utf16 "4711")⟩).calls ≠ []
    ∧ (serve sampleRuntime sampleConfig .profile ⟨.undefined, some (utf16 "4711")⟩).outcome
        (.rejected ⟨utf16 "", none⟩)
      = .replied ⟨500, [],
          .obj [(utf16 "error", .str (utf16 "SAP Profile Error failed")),
                (utf16 "details", .str (utf16 ""))],
          [(utf16 "SAP Profile Error", utf16 "")]⟩ :=
  ⟨by simp [serve, profile, Handler.calls], rfl⟩

/-! ## Date Normalizer: pattern matching -/

theorem dropLiteral_append (p rest : JSStr) : dropLiteral p (p ++ rest) = some rest := by
  induction p with
  | nil => cases rest <;> rfl
  | cons c cs ih => simp [dropLiteral, ih]

theorem dropLiteral_some (p s rest : JSStr) (h : dropLiteral p s = some rest) :
    s = p ++ rest := by
  induction p generalizing s with
  | nil =>
      cases s <;> simp [dropLiteral] at h <;> simp [h]
  | cons c cs ih =>
      cases s with
      | nil => simp [dropLiteral] at h
      | cons d ds =>
          simp only [dropLiteral] at h
          split at h
          · rename_i hcd
            rw [ih ds h, hcd]
            rfl
          · simp at h

/-- A match at the head of the input decomposes the input. -/
theorem matchDateHere_some (s digits : JSStr) (h : matchDateHere s = some digits) :
    digits ≠ [] ∧ (∀ c ∈ digits, isDigit c = true)
      ∧ ∃ after, s = utf16 "/Date(" ++ digits ++ utf16 ")/" ++ after := by
  unfold matchDateHere at h
  split at h
  · simp at h
  · rename_i rest hrest
    have hs := dropLiteral_some _ _ _ hrest
    simp only at h
    split at h
    · simp at h
    · rename_i hne
      split at h
      · simp at h
      · rename_i tail htail
        have ht := dropLiteral_some _ _ _ htail
        injection h with h
        refine ⟨?_, ?_, tail, ?_⟩
        · rw [← h]
          intro hnil
          simp [hnil] at hne
        · intro c hc
          rw [← h] at hc
          exact List.mem_takeWhile_imp hc
        · rw [hs, ← h]
          have := List.takeWhile_append_dropWhile isDigit rest
          rw [ht] at this
          rw [List.append_assoc, List.append_assoc]
          congr 1
          rw [← List.append_assoc] at this ⊢
          exact this.symm

/-- Soundness of the search: a reported match is an occurrence of the pattern. -/
theorem matchDate_some (s digits : JSStr) (h : matchDate s = some digits) :
    digits ≠ [] ∧ (∀ c ∈ digits, isDigit c = true)
      ∧ ∃ before after, s = before ++ (utf16 "/Date(" ++ digits ++ utf16 ")/") ++ after := by
  induction s with
  | nil =>
      simp only [matchDate] at h
      obtain ⟨h1, h2, after, h3⟩ := matchDateHere_some _ _ h
      exact ⟨h1, h2, [], after, by simpa using h3⟩
  | cons c cs ih =>
      simp only [matchDate] at h
      split at h
      · rename_i d hd
        injection h with h
        subst h
        obtain ⟨h1, h2, after, h3⟩ := matchDateHere_some _ _ hd
        exact ⟨h1, h2, [], after, by simpa using h3⟩
      · obtain ⟨h1, h2, before, after, h3⟩ := ih h
        exact ⟨h1, h2, c :: before, after, by simp [h3]⟩

theorem matchDate_none_of_not_contains (s : JSStr) (h : ¬ ContainsEpochPattern s) :
    matchDate s = none := by
  cases hm : matchDate s with
  | none => rfl
  | some digits =>
      obtain ⟨h1, h2, before, after, h3⟩ := matchDate_some s digits hm
      exact absurd ⟨before, digits, after, h1, h2, h3⟩ h

/-- An occurrence of the pattern has at least nine code units. -/
theorem matchDate_none_of_short (s : JSStr) (h : s.length < 9) : matchDate s = none := by
  cases hm : matchDate s with
  | none => rfl
  | some digits =>
      obtain ⟨h1, _, before, after, h3⟩ := matchDate_some s digits hm
      have hlen := congrArg List.length h3
      have hpre : (utf16 "/Date(").length = 6 := rfl
      have hsuf : (utf16 ")/").length = 2 := rfl
      have hd : 0 < digits.length := List.length_pos.mpr h1
      simp only [List.length_append, hpre, hsuf] at hlen
      omega

theorem takeWhile_digits (ds tail : JSStr) (hd : ∀ c ∈ ds, isDigit c = true) :
    (ds ++ utf16 ")/" ++ tail).takeWhile isDigit = ds
      ∧ (ds ++ utf16 ")/" ++ tail).dropWhile isDigit = utf16 ")/" ++ tail := by
  induction ds with
  | nil => exact ⟨rfl, rfl⟩
  | cons c cs ih =>
      have hc : isDigit c = true := hd c (List.mem_cons_self _ _)
      have ih2 := ih fun x hx => hd x (List.mem_cons_of_mem _ hx)
      simp only [List.cons_append, List.takeWhile_cons, List.dropWhile_cons, hc, if_true]
      exact ⟨by rw [ih2.1], ih2.2⟩

/-- Completeness at the head: a string that starts with the pattern matches,
and the capture is the run of digits. -/
theorem matchDate_epoch (ds tail : JSStr) (hne : ds ≠ []) (hd : ∀ c ∈ ds, isDigit c = true) :
    matchDate (utf16 "/Date(" ++ ds ++ utf16 ")/" ++ tail) = some ds := by
  have hhere : matchDateHere (utf16 "/Date(" ++ ds ++ utf16 ")/" ++ tail) = some ds := by
    unfold matchDateHere
    have h1 : dropLiteral (utf16 "/Date(") (utf16 "/Date(" ++ ds ++ utf16 ")/" ++ tail)
        = some (ds ++ utf16 ")/" ++ tail) := by
      rw [List.append_assoc, List.append_assoc, ← List.append_assoc ds]
      exact dropLiteral_append _ _
    rw [h1]
    obtain ⟨ht, hdw⟩ := takeWhile_digits ds tail hd
    simp only [ht, hdw, dropLiteral_append]
    cases ds with
    | nil => exact absurd rfl hne
    | cons c cs => rfl
  have hcons : utf16 "/Date(" ++ ds ++ utf16 ")/" ++ tail
      = 47 :: ([68, 97, 116, 101, 40] ++ ds ++ utf16 ")/" ++ tail) := rfl
  rw [hcons] at hhere ⊢
  simp only [matchDate, hhere]

/-- Completeness of the search: a string that contains an occurrence of the
pattern has a match. -/
theorem matchDate_isSome_of_contains (s : JSStr) (h : ContainsEpochPattern s) :
    (matchDate s).isSome = true := by
  obtain ⟨before, digits, after, hne, hd, hs⟩ := h
  subst hs
  induction before with
  | nil =>
      have := matchDate_epoch digits after hne hd
      simp only [List.nil_append]
      rw [this]
      rfl
  | cons c cs ih =>
      simp only [List.cons_append, matchDate]
      split
      · rfl
      · simpa using ih

/-! ## Date Normalizer: compact dates and unrecognised input -/

theorem strictEq_length (n k : Nat) :
    strictEq (.ofNat n) (.ofNat k) = decide (n = k) := by
  simp [strictEq, JSVal.ofNat]

theorem parseSapDate_str_of_no_match (s : JSStr) (h : matchDate s = none) :
    parseSapDate (.str s) = if s.length = 8 then .ok (.str (dashed s)) else .ok .null := by
  have hlen : optProp (.str s) "length" = .ofNat s.length := by
    simp [optProp, getOwn]
  simp only [parseSapDate, optMatchDate, bind, Except.bind, h, hlen, strictEq_length]
  by_cases h8 : s.length = 8
  · simp only [h8, decide_True, if_true, callSubstring, substring, dashed]
    simp
  · simp [h8]

/-- C7. For every string `s` of 8 code units, `parseSapDate` returns
`s[0..4]-s[4..6]-s[6..8]` without any calendar check, so `20250530` gives
`2025-05-30` and `20250230` gives `2025-02-30`; the epoch pattern never matches
a string of 8 code units. -/
theorem compact_date (s : JSStr) (h : s.length = 8) :
    parseSapDate (.str s) = .ok (.str (dashed s)) ∧ matchDate s = none
      ∧ parseSapDate (.str (utf16 "20250530")) = .ok (.str (utf16 "2025-05-30"))
      ∧ parseSapDate (.str (utf16 "20250230")) = .ok (.str (utf16 "2025-02-30")) := by
  have hm := matchDate_none_of_short s (by omega)
  refine ⟨?_, hm, rfl, rfl⟩
  rw [parseSapDate_str_of_no_match s hm]
  simp [h]

/-- Witness of `compact_date`: the string `20251231`. -/
theorem compact_date_witness :
    parseSapDate (.str (utf16 "20251231")) = .ok (.str (dashed (utf16 "20251231")))
      ∧ matchDate (utf16 "20251231") = none
      ∧ parseSapDate (.str (utf16 "20250530")) = .ok (.str (utf16 "2025-05-30"))
      ∧ parseSapDate (.str (utf16 "20250230")) = .ok (.str (utf16 "2025-02-30")) :=
  compact_date (utf16 "20251231") (by decide)

/-- C6 (as amended). `parseSapDate` yields `null` for `null`, for `undefined`
and for every string that does not have 8 code units and contains no
occurrence of the epoch pattern. -/
theorem unrecognised_input :
    parseSapDate .null = .ok .null ∧ parseSapDate .undefined = .ok .null
      ∧ ∀ s : JSStr, s.length ≠ 8 → ¬ ContainsEpochPattern s →
          parseSapDate (.str s) = .ok .null := by
  refine ⟨rfl, rfl, ?_⟩
  intro s h8 hc
  rw [parseSapDate_str_of_no_match s (matchDate_none_of_not_contains s hc)]
  simp [h8]

/-- Witness of `unrecognised_input`: the string `not a date`. -/
theorem unrecognised_input_witness :
    parseSapDate (.str (utf16 "not a date")) = .ok .null :=
  unrecognised_input.2.2 (utf16 "not a date") (by decide)
    (fun h => absurd (matchDate_isSome_of_contains _ h) (by decide))

/-- C6 (counterexample). The string `notadate` has 8 code units, so it is split
like a compact date: the result is `nota-da-te`, not `null`. -/
theorem notadate_is_split :
    parseSapDate (.str (utf16 "notadate")) = .ok (.str (utf16 "nota-da-te")) :=
  rfl

/-- Beyond C6: the pattern is not anchored, so a string that merely contains
an epoch pattern is read as a date. -/
theorem embedded_pattern_is_read :
    parseSapDate (.str (utf16 "due /Date(0)/ or later")) = .ok (.str (utf16 "1970-01-01")) :=
  rfl

/-- Beyond C6: a value that is neither a string, `null` nor `undefined` has no
callable `match`, so `parseSapDate` raises a `TypeError` on it. -/
theorem non_string_throws (n : JSNum) (items : List JSVal) (fields : List (JSStr × JSVal))
    (b : Bool) :
    parseSapDate (.num n) = .error .notAFunction
      ∧ parseSapDate (.arr items) = .error .notAFunction
      ∧ parseSapDate (.obj fields) = .error .notAFunction
      ∧ parseSapDate (.bool b) = .error .notAFunction :=
  ⟨rfl, rfl, rfl, rfl⟩

/-! ## Date Normalizer: the epoch encoding -/

theorem DaysInYear_eq (y : Nat) : DaysInYear y = if isLeapYear y then 366 else 365 := by
  unfold DaysInYear isLeapYear
  by_cases h4 : y % 4 = 0 <;> by_cases h100 : y % 100 = 0 <;> by_cases h400 : y % 400 = 0 <;>
    simp [h4, h100, h400]

theorem DayFromYear_succ (y : Nat) : DayFromYear (y + 1) = DayFromYear y + DaysInYear y := by
  unfold DayFromYear DaysInYear
  push_cast
  split_ifs <;> omega

theorem DayFromYear_1970 : DayFromYear 1970 = 0 := by decide

theorem DayFromYear_eq_daysBeforeYear (y : Nat) (h : 1970 ≤ y) :
    DayFromYear y = (daysBeforeYear y : Int) := by
  induction y, h using Nat.le_induction with
  | base => simp [DayFromYear_1970, daysBeforeYear]
  | succ n hn ih =>
      rw [DayFromYear_succ, ih, DaysInYear_eq]
      unfold daysBeforeYear
      rw [Finset.sum_Ico_succ_top hn]
      push_cast
      rfl

theorem DayFromYear_mono (a b : Nat) (h : a ≤ b) : DayFromYear a ≤ DayFromYear b := by
  induction b, h using Nat.le_induction with
  | base => exact le_refl _
  | succ n _ ih =>
      rw [DayFromYear_succ]
      have : (0 : Int) ≤ DaysInYear n := Int.ofNat_nonneg _
      omega

theorem DayFromYear_lower (k : Nat) : (365 * k : Int) ≤ DayFromYear (1970 + k) := by
  induction k with
  | zero => simp [DayFromYear_1970]
  | succ k ih =>
      rw [← Nat.add_assoc, DayFromYear_succ]
      have : 365 ≤ DaysInYear (1970 + k) := by
        unfold DaysInYear
        split_ifs <;> omega
      push_cast
      omega

/-- The year found for `t` is the year whose days contain the day of `t`. -/
theorem YearFromTime_spec (t : Nat) :
    1970 ≤ YearFromTime t ∧ DayFromYear (YearFromTime t) ≤ (Day t : Int)
      ∧ (Day t : Int) < DayFromYear (YearFromTime t + 1) := by
  have hbase : DayFromYear 1970 ≤ (Day t : Int) := by
    rw [DayFromYear_1970]
    exact Int.ofNat_nonneg _
  have hb : 1970 ≤ 1970 + Day t / 365 := Nat.le_add_right _ _
  refine ⟨?_, ?_, ?_⟩
  · exact Nat.le_findGreatest (P := fun y => DayFromYear y ≤ (Day t : Int)) hb hbase
  · exact Nat.findGreatest_spec (P := fun y => DayFromYear y ≤ (Day t : Int)) hb hbase
  · by_contra hcon
    have hle : DayFromYear (YearFromTime t + 1) ≤ (Day t : Int) := not_lt.mp hcon
    by_cases hin : YearFromTime t + 1 ≤ 1970 + Day t / 365
    · have := Nat.le_findGreatest (P := fun y => DayFromYear y ≤ (Day t : Int)) hin hle
      unfold YearFromTime at this
      omega
    · have h1 : 1970 + (Day t / 365 + 1) ≤ YearFromTime t + 1 := by omega
      have h2 := DayFromYear_mono _ _ h1
      have h3 := DayFromYear_lower (Day t / 365 + 1)
      push_cast at h3
      omega

theorem YearFromTime_le_9999 (t : Nat) (h : t < 253402300800000) : YearFromTime t ≤ 9999 := by
  by_contra hcon
  have h1 : 10000 ≤ YearFromTime t := by omega
  have h2 := DayFromYear_mono _ _ h1
  have h3 : DayFromYear 10000 = 2932897 := by decide
  have h4 := (YearFromTime_spec t).2.1
  have h5 : Day t < 2932897 := by
    unfold Day msPerDay
    omega
  omega

theorem DayWithinYear_spec (t : Nat) :
    (Day t : Int) = DayFromYear (YearFromTime t) + (DayWithinYear t : Int)
      ∧ DayWithinYear t < 365 + InLeapYear t
      ∧ InLeapYear t = (if isLeapYear (YearFromTime t) then 1 else 0) := by
  obtain ⟨_, hlo, hhi⟩ := YearFromTime_spec t
  rw [DayFromYear_succ] at hhi
  have hleap : InLeapYear t = (if isLeapYear (YearFromTime t) then 1 else 0) := by
    unfold InLeapYear
    rw [DaysInYear_eq]
    split_ifs <;> simp_all
  have hdiy : DaysInYear (YearFromTime t) = 365 + InLeapYear t := by
    rw [hleap, DaysInYear_eq]
    split_ifs <;> rfl
  unfold DayWithinYear
  refine ⟨by omega, by omega, hleap⟩

theorem daysBeforeMonth_values (y : Nat) :
    daysBeforeMonth y 1 = 0
      ∧ daysBeforeMonth y 2 = 31
      ∧ daysBeforeMonth y 3 = 59 + (if isLeapYear y then 1 else 0)
      ∧ daysBeforeMonth y 4 = 90 + (if isLeapYear y then 1 else 0)
      ∧ daysBeforeMonth y 5 = 120 + (if isLeapYear y then 1 else 0)
      ∧ daysBeforeMonth y 6 = 151 + (if isLeapYear y then 1 else 0)
      ∧ daysBeforeMonth y 7 = 181 + (if isLeapYear y then 1 else 0)
      ∧ daysBeforeMonth y 8 = 212 + (if isLeapYear y then 1 else 0)
      ∧ daysBeforeMonth y 9 = 243 + (if isLeapYear y then 1 else 0)
      ∧ daysBeforeMonth y 10 = 273 + (if isLeapYear y then 1 else 0)
      ∧ daysBeforeMonth y 11 = 304 + (if isLeapYear y then 1 else 0)
      ∧ daysBeforeMonth y 12 = 334 + (if isLeapYear y then 1 else 0) := by
  unfold daysBeforeMonth
  cases h : isLeapYear y <;>
    simp [Finset.sum_Ico_eq_sum_range, Finset.sum_range_succ, daysInMonth, h]

/-- The two tables agree with the calendar: for a day `w` within a year `y`,
the tabulated month and day of the month name exactly that day. -/
theorem month_table (y w leap : Nat) (hleap : leap = if isLeapYear y then 1 else 0)
    (hw : w < 365 + leap) :
    monthOfDay w leap + 1 ≤ 12 ∧ 1 ≤ dateOfDay w leap (monthOfDay w leap)
      ∧ dateOfDay w leap (monthOfDay w leap) ≤ daysInMonth y (monthOfDay w leap + 1)
      ∧ daysBeforeMonth y (monthOfDay w leap + 1) + (dateOfDay w leap (monthOfDay w leap) - 1)
          = w := by
  obtain ⟨b1, b2, b3, b4, b5, b6, b7, b8, b9, b10, b11, b12⟩ := daysBeforeMonth_values y
  rw [← hleap] at b3 b4 b5 b6 b7 b8 b9 b10 b11 b12
  have d1 : daysInMonth y 1 = 31 := rfl
  have d2 : daysInMonth y 2 = 28 + leap := by
    rw [hleap]
    simp only [daysInMonth]
    split_ifs <;> rfl
  have d3 : daysInMonth y 3 = 31 := rfl
  have d4 : daysInMonth y 4 = 30 := rfl
  have d5 : daysInMonth y 5 = 31 := rfl
  have d6 : daysInMonth y 6 = 30 := rfl
  have d7 : daysInMonth y 7 = 31 := rfl
  have d8 : daysInMonth y 8 = 31 := rfl
  have d9 : daysInMonth y 9 = 30 := rfl
  have d10 : daysInMonth y 10 = 31 := rfl
  have d11 : daysInMonth y 11 = 30 := rfl
  have d12 : daysInMonth y 12 = 31 := rfl
  have hl : leap ≤ 1 := by
    rw [hleap]
    split_ifs <;> omega
  clear hleap
  generalize hm : monthOfDay w leap = m
  unfold monthOfDay at hm
  by_cases h0 : w < 31
  · rw [if_pos h0] at hm
    subst hm
    simp only [Nat.zero_add, Nat.reduceAdd, b1, b2, b3, b4, b5, b6, b7, b8, b9, b10, b11, b12,
      d1, d2, d3, d4, d5, d6, d7, d8, d9, d10, d11, d12, dateOfDay]
    clear b1 b2 b3 b4 b5 b6 b7 b8 b9 b10 b11 b12 d1 d2 d3 d4 d5 d6 d7 d8 d9 d10 d11 d12
    omega
  rw [if_neg h0] at hm
  by_cases h1 : w < 59 + leap
  · rw [if_pos h1] at hm
    subst hm
    simp only [Nat.zero_add, Nat.reduceAdd, b1, b2, b3, b4, b5, b6, b7, b8, b9, b10, b11, b12,
      d1, d2, d3, d4, d5, d6, d7, d8, d9, d10, d11, d12, dateOfDay]
    clear b1 b2 b3 b4 b5 b6 b7 b8 b9 b10 b11 b12 d1 d2 d3 d4 d5 d6 d7 d8 d9 d10 d11 d12
    omega
  rw [if_neg h1] at hm
  by_cases h2 : w < 90 + leap
  · rw [if_pos h2] at hm
    subst hm
    simp only [Nat.zero_add, Nat.reduceAdd, b1, b2, b3, b4, b5, b6, b7, b8, b9, b10, b11, b12,
      d1, d2, d3, d4, d5, d6, d7, d8, d9, d10, d11, d12, dateOfDay]
    clear b1 b2 b3 b4 b5 b6 b7 b8 b9 b10 b11 b12 d1 d2 d3 d4 d5 d6 d7 d8 d9 d10 d11 d12
    omega
  rw [if_neg h2] at hm
  by_cases h3 : w < 120 + leap
  · rw [if_pos h3] at hm
    subst hm
    simp only [Nat.zero_add, Nat.reduceAdd, b1, b2, b3, b4, b5, b6, b7, b8, b9, b10, b11, b12,
      d1, d2, d3, d4, d5, d6, d7, d8, d9, d10, d11, d12, dateOfDay]
    clear b1 b2 b3 b4 b5 b6 b7 b8 b9 b10 b11 b12 d1 d2 d3 d4 d5 d6 d7 d8 d9 d10 d11 d12
    omega
  rw [if_neg h3] at hm
  by_cases h4 : w < 151 + leap
  · rw [if_pos h4] at hm
    subst hm
    simp only [Nat.zero_add, Nat.reduceAdd, b1, b2, b3, b4, b5, b6, b7, b8, b9, b10, b11, b12,
      d1, d2, d3, d4, d5, d6, d7, d8, d9, d10, d11, d12, dateOfDay]
    clear b1 b2 b3 b4 b5 b6 b7 b8 b9 b10 b11 b12 d1 d2 d3 d4 d5 d6 d7 d8 d9 d10 d11 d12
    omega
  rw [if_neg h4] at hm
  by_cases h5 : w < 181 + leap
  · rw [if_pos h5] at hm
    subst hm
    simp only [Nat.zero_add, Nat.reduceAdd, b1, b2, b3, b4, b5, b6, b7, b8, b9, b10, b11, b12,
      d1, d2, d3, d4, d5, d6, d7, d8, d9, d10, d11, d12, dateOfDay]
    clear b1 b2 b3 b4 b5 b6 b7 b8 b9 b10 b11 b12 d1 d2 d3 d4 d5 d6 d7 d8 d9 d10 d11 d12
    omega
  rw [if_neg h5] at hm
  by_cases h6 : w < 212 + leap
  · rw [if_pos h6] at hm
    subst hm
    simp only [Nat.zero_add, Nat.reduceAdd, b1, b2, b3, b4, b5, b6, b7, b8, b9, b10, b11, b12,
      d1, d2, d3, d4, d5, d6, d7, d8, d9, d10, d11, d12, dateOfDay]
    clear b1 b2 b3 b4 b5 b6 b7 b8 b9 b10 b11 b12 d1 d2 d3 d4 d5 d6 d7 d8 d9 d10 d11 d12
    omega
  rw [if_neg h6] at hm
  by_cases h7 : w < 243 + leap
  · rw [if_pos h7] at hm
    subst hm
    simp only [Nat.zero_add, Nat.reduceAdd, b1, b2, b3, b4, b5, b6, b7, b8, b9, b10, b11, b12,
      d1, d2, d3, d4, d5, d6, d7, d8, d9, d10, d11, d12, dateOfDay]
    clear b1 b2 b3 b4 b5 b6 b7 b8 b9 b10 b11 b12 d1 d2 d3 d4 d5 d6 d7 d8 d9 d10 d11 d12
    omega
  rw [if_neg h7] at hm
  by_cases h8 : w < 273 + leap
  · rw [if_pos h8] at hm
    subst hm
    simp only [Nat.zero_add, Nat.reduceAdd, b1, b2, b3, b4, b5, b6, b7, b8, b9, b10, b11, b12,
      d1, d2, d3, d4, d5, d6, d7, d8, d9, d10, d11, d12, dateOfDay]
    clear b1 b2 b3 b4 b5 b6 b7 b8 b9 b10 b11 b12 d1 d2 d3 d4 d5 d6 d7 d8 d9 d10 d11 d12
    omega
  rw [if_neg h8] at hm
  by_cases h9 : w < 304 + leap
  · rw [if_pos h9] at hm
    subst hm
    simp only [Nat.zero_add, Nat.reduceAdd, b1, b2, b3, b4, b5, b6, b7, b8, b9, b10, b11, b12,
      d1, d2, d3, d4, d5, d6, d7, d8, d9, d10, d11, d12, dateOfDay]
    clear b1 b2 b3 b4 b5 b6 b7 b8 b9 b10 b11 b12 d1 d2 d3 d4 d5 d6 d7 d8 d9 d10 d11 d12
    omega
  rw [if_neg h9] at hm
  by_cases h10 : w < 334 + leap
  · rw [if_pos h10] at hm
    subst hm
    simp only [Nat.zero_add, Nat.reduceAdd, b1, b2, b3, b4, b5, b6, b7, b8, b9, b10, b11, b12,
      d1, d2, d3, d4, d5, d6, d7, d8, d9, d10, d11, d12, dateOfDay]
    clear b1 b2 b3 b4 b5 b6 b7 b8 b9 b10 b11 b12 d1 d2 d3 d4 d5 d6 d7 d8 d9 d10 d11 d12
    omega
  rw [if_neg h10] at hm
  subst hm
  simp only [Nat.zero_add, Nat.reduceAdd, b1, b2, b3, b4, b5, b6, b7, b8, b9, b10, b11, b12,
    d1, d2, d3, d4, d5, d6, d7, d8, d9, d10, d11, d12, dateOfDay]
  clear b1 b2 b3 b4 b5 b6 b7 b8 b9 b10 b11 b12 d1 d2 d3 d4 d5 d6 d7 d8 d9 d10 d11 d12
  omega

/-- The month and day computed for `t` name the day of the year of `t`. -/
theorem month_date_spec (t : Nat) :
    MonthFromTime t + 1 ≤ 12 ∧ 1 ≤ DateFromTime t
      ∧ DateFromTime t ≤ daysInMonth (YearFromTime t) (MonthFromTime t + 1)
      ∧ daysBeforeMonth (YearFromTime t) (MonthFromTime t + 1) + (DateFromTime t - 1)
          = DayWithinYear t := by
  obtain ⟨_, hw, hleap⟩ := DayWithinYear_spec t
  exact month_table (YearFromTime t) (DayWithinYear t) (InLeapYear t) hleap hw

/-! ## The calendar predicate names one date -/

theorem daysBeforeYear_succ (y : Nat) (h : 1970 ≤ y) :
    daysBeforeYear (y + 1) = daysBeforeYear y + (if isLeapYear y then 366 else 365) := by
  unfold daysBeforeYear
  rw [Finset.sum_Ico_succ_top h]

theorem daysBeforeYear_mono (a b : Nat) (ha : 1970 ≤ a) (h : a ≤ b) :
    daysBeforeYear a ≤ daysBeforeYear b := by
  induction b, h using Nat.le_induction with
  | base => exact le_refl _
  | succ n hn ih =>
      rw [daysBeforeYear_succ n (le_trans ha hn)]
      omega

/-- The day of the year named by a month and a day of the month lies within
the year, and names no other month and day. -/
theorem dayOfYear_injective (y m d m2 d2 : Nat) (hm : 1 ≤ m) (hm12 : m ≤ 12) (hd : 1 ≤ d)
    (hdm : d ≤ daysInMonth y m) (hm2 : 1 ≤ m2) (hm212 : m2 ≤ 12) (hd2 : 1 ≤ d2)
    (hdm2 : d2 ≤ daysInMonth y m2) :
    daysBeforeMonth y m + (d - 1) < (if isLeapYear y then 366 else 365)
      ∧ (daysBeforeMonth y m + (d - 1) = daysBeforeMonth y m2 + (d2 - 1) → m = m2 ∧ d = d2) := by
  obtain ⟨b1, b2, b3, b4, b5, b6, b7, b8, b9, b10, b11, b12⟩ := daysBeforeMonth_values y
  have l1 : daysInMonth y 1 = 31 := rfl
  have l2 : daysInMonth y 2 = 28 + (if isLeapYear y then 1 else 0) := by
    simp only [daysInMonth]
    split_ifs <;> rfl
  have l3 : daysInMonth y 3 = 31 := rfl
  have l4 : daysInMonth y 4 = 30 := rfl
  have l5 : daysInMonth y 5 = 31 := rfl
  have l6 : daysInMonth y 6 = 30 := rfl
  have l7 : daysInMonth y 7 = 31 := rfl
  have l8 : daysInMonth y 8 = 31 := rfl
  have l9 : daysInMonth y 9 = 30 := rfl
  have l10 : daysInMonth y 10 = 31 := rfl
  have l11 : daysInMonth y 11 = 30 := rfl
  have l12 : daysInMonth y 12 = 31 := rfl
  have hyear : (if isLeapYear y then 366 else 365)
      = 365 + (if isLeapYear y then 1 else 0) := by
    split_ifs <;> rfl
  rw [hyear]
  have hl : (if isLeapYear y then 1 else 0) ≤ 1 := by
    split_ifs <;> omega
  generalize (if isLeapYear y then 1 else 0) = leap at *
  refine ⟨?_, ?_⟩
  · interval_cases m <;>
      simp only [b1, b2, b3, b4, b5, b6, b7, b8, b9, b10, b11, b12,
        l1, l2, l3, l4, l5, l6, l7, l8, l9, l10, l11, l12] at hdm ⊢ <;>
      clear b1 b2 b3 b4 b5 b6 b7 b8 b9 b10 b11 b12 l1 l2 l3 l4 l5 l6 l7 l8 l9 l10 l11 l12 <;>
      omega
  · intro h
    interval_cases m <;> interval_cases m2 <;>
      simp only [b1, b2, b3, b4, b5, b6, b7, b8, b9, b10, b11, b12,
        l1, l2, l3, l4, l5, l6, l7, l8, l9, l10, l11, l12] at hdm hdm2 h <;>
      clear b1 b2 b3 b4 b5 b6 b7 b8 b9 b10 b11 b12 l1 l2 l3 l4 l5 l6 l7 l8 l9 l10 l11 l12 <;>
      refine ⟨?_, ?_⟩ <;> omega

/-- An instant has at most one UTC calendar date. -/
theorem IsUTCDateOf_unique (t y m d y2 m2 d2 : Nat) (h : IsUTCDateOf t y m d)
    (h2 : IsUTCDateOf t y2 m2 d2) : y = y2 ∧ m = m2 ∧ d = d2 := by
  obtain ⟨hy, hm, hm12, hd, hdm, hsum⟩ := h
  obtain ⟨hy2, hmb, hmb12, hdb, hdmb, hsum2⟩ := h2
  have hin := (dayOfYear_injective y m d m d hm hm12 hd hdm hm hm12 hd hdm).1
  have hin2 := (dayOfYear_injective y2 m2 d2 m2 d2 hmb hmb12 hdb hdmb hmb hmb12 hdb hdmb).1
  have hyy : y = y2 := by
    rcases Nat.lt_trichotomy y y2 with hlt | heq | hgt
    · have h1 := daysBeforeYear_mono (y + 1) y2 (by omega) hlt
      rw [daysBeforeYear_succ y hy] at h1
      omega
    · exact heq
    · have h1 := daysBeforeYear_mono (y2 + 1) y (by omega) hgt
      rw [daysBeforeYear_succ y2 hy2] at h1
      omega
  subst hyy
  have hoff : daysBeforeMonth y m + (d - 1) = daysBeforeMonth y m2 + (d2 - 1) := by omega
  exact ⟨rfl, (dayOfYear_injective y m d m2 d2 hm hm12 hd hdm hmb hmb12 hdb hdmb).2 hoff⟩

/-- The calendar predicates on a known date: 30 May 2024 is the UTC date of
1717027200000 ms, and `2024-05-30` is how it is written. -/
theorem calendar_example :
    IsUTCDateOf 1717027200000 2024 5 30 ∧ IsoDate (utf16 "2024-05-30") 2024 5 30 :=
  ⟨by unfold IsUTCDateOf; decide,
   2, 0, 2, 4, 0, 5, 3, 0, by decide, by decide, by decide, by decide, by decide, by decide,
     by decide, by decide, by decide, by decide, by decide, by decide⟩

theorem digitChar_bne (n : Nat) : (digitChar n != 84) = true := by
  simp only [digitChar, bne_iff_ne, ne_eq]
  omega

theorem splitHead_date (y mo da : Nat) (rest : JSStr) :
    splitHead (dec4 y ++ utf16 "-" ++ dec2 mo ++ utf16 "-" ++ dec2 da ++ utf16 "T" ++ rest) 84
      = dec4 y ++ utf16 "-" ++ dec2 mo ++ utf16 "-" ++ dec2 da := by
  have h1 : utf16 "-" = [45] := rfl
  have h2 : utf16 "T" = [84] := rfl
  simp [splitHead, dec4, dec2, h1, h2, List.takeWhile, digitChar_bne]

theorem isoDate_of_dec (y m d : Nat) (hy : y ≤ 9999) (hm : m ≤ 99) (hd : d ≤ 99) :
    IsoDate (dec4 y ++ utf16 "-" ++ dec2 m ++ utf16 "-" ++ dec2 d) y m d := by
  refine ⟨y / 1000 % 10, y / 100 % 10, y / 10 % 10, y % 10, m / 10 % 10, m % 10, d / 10 % 10,
    d % 10, ?_, ?_, ?_, ?_, ?_, ?_, ?_, ?_, rfl, ?_, ?_, ?_⟩ <;> omega

/-- The result of `parseSapDate` on an epoch string of the years up to 9999. -/
theorem parseSapDate_epoch (ds : JSStr) (hne : ds ≠ []) (hd : ∀ c ∈ ds, isDigit c = true)
    (hr : digitsToNumber ds < 253402300800000) :
    parseSapDate (.str (utf16 "/Date(" ++ ds ++ utf16 ")/")) =
      .ok (.str (dec4 (YearFromTime (digitsToNumber ds)) ++ utf16 "-"
        ++ dec2 (MonthFromTime (digitsToNumber ds) + 1) ++ utf16 "-"
        ++ dec2 (DateFromTime (digitsToNumber ds)))) := by
  have hm := matchDate_epoch ds [] hne hd
  rw [List.append_nil] at hm
  have hy := YearFromTime_le_9999 _ hr
  have hmk : makeDate (digitsToNumber ds) = some (digitsToNumber ds) := by
    unfold makeDate
    rw [if_neg (by omega)]
  simp only [parseSapDate, optMatchDate, bind, Except.bind, hm, hmk, toISOString, isoYear,
    if_pos hy]
  rw [show ∀ a b c d e f g h i j k l m n : JSStr,
      a ++ b ++ c ++ d ++ e ++ f ++ g ++ h ++ i ++ j ++ k ++ l ++ m ++ n
        = a ++ b ++ c ++ d ++ e ++ f ++ (g ++ h ++ i ++ j ++ k ++ l ++ m ++ n) from by
      intros; simp only [List.append_assoc]]
  rw [splitHead_date]

/-- C4 (as amended). For every string `/Date(<digits>)/` whose digits denote
fewer than 253402300800000 milliseconds (instants before the year 10000),
`parseSapDate` returns a string of the shape `YYYY-MM-DD` that is the UTC
calendar date of that many milliseconds after the Unix epoch, the time of day
being discarded. -/
theorem epoch_date (ds : JSStr) (hne : ds ≠ []) (hd : ∀ c ∈ ds, isDigit c = true)
    (hr : digitsToNumber ds < 253402300800000) :
    ∃ r y m d, parseSapDate (.str (utf16 "/Date(" ++ ds ++ utf16 ")/")) = .ok (.str r)
      ∧ IsoDate r y m d ∧ IsUTCDateOf (digitsToNumber ds) y m d := by
  obtain ⟨hy70, _, _⟩ := YearFromTime_spec (digitsToNumber ds)
  obtain ⟨hday, _, _⟩ := DayWithinYear_spec (digitsToNumber ds)
  obtain ⟨hm12, hd1, hdm, hsum⟩ := month_date_spec (digitsToNumber ds)
  have hy := YearFromTime_le_9999 _ hr
  have hdays := DayFromYear_eq_daysBeforeYear _ hy70
  have hd31 : daysInMonth (YearFromTime (digitsToNumber ds))
      (MonthFromTime (digitsToNumber ds) + 1) ≤ 31 := by
    unfold daysInMonth
    split <;> first | omega | (split_ifs <;> omega)
  refine ⟨_, YearFromTime (digitsToNumber ds), MonthFromTime (digitsToNumber ds) + 1,
    DateFromTime (digitsToNumber ds), parseSapDate_epoch ds hne hd hr,
    isoDate_of_dec _ _ _ hy (by omega) (by omega), hy70, by omega, hm12, hd1, hdm, ?_⟩
  have hD : Day (digitsToNumber ds) = digitsToNumber ds / 86400000 := rfl
  rw [← hD]
  rw [hdays] at hday
  generalize daysBeforeYear (YearFromTime (digitsToNumber ds)) = a at *
  generalize daysBeforeMonth (YearFromTime (digitsToNumber ds))
    (MonthFromTime (digitsToNumber ds) + 1) = b at *
  generalize DateFromTime (digitsToNumber ds) = c at *
  generalize DayWithinYear (digitsToNumber ds) = w at *
  generalize Day (digitsToNumber ds) = dd at *
  clear hdm hd31
  omega

/-- Witness of `epoch_date`: the digits `1717027200000`. -/
theorem epoch_date_witness :
    ∃ r y m d, parseSapDate (.str (utf16 "/Date(" ++ utf16 "1717027200000" ++ utf16 ")/"))
        = .ok (.str r)
      ∧ IsoDate r y m d ∧ IsUTCDateOf (digitsToNumber (utf16 "1717027200000")) y m d :=
  epoch_date (utf16 "1717027200000") (by decide) (by decide) (by decide)

/-- C4 (counterexample). The digits `253402300800000` denote the first instant
of the year 10000; the result is `+010000-01-01`, which has thirteen code
units and so is not of the shape `YYYY-MM-DD`. -/
theorem epoch_year_10000 :
    parseSapDate (.str (utf16 "/Date(" ++ utf16 "253402300800000" ++ utf16 ")/"))
        = .ok (.str (utf16 "+010000-01-01"))
      ∧ ¬ ∃ y m d, IsoDate (utf16 "+010000-01-01") y m d := by
  refine ⟨rfl, ?_⟩
  rintro ⟨y, m, d, y1, y2, y3, y4, m1, m2, d1, d2, _, _, _, _, _, _, _, _, hr, _⟩
  have hlen := congrArg List.length hr
  have h13 : (utf16 "+010000-01-01").length = 13 := by decide
  rw [h13] at hlen
  simp at hlen

/-- Beyond C4: digits that denote more than 8.64e15 milliseconds give an
invalid date, on which `toISOString` raises a `RangeError`. -/
theorem epoch_out_of_range :
    parseSapDate (.str (utf16 "/Date(8640000000000001)/")) = .error .invalidTime :=
  rfl

/-- C5 (as amended). `parseSapDate("/Date(1717027200000)/")` returns
`2024-05-30`. -/
theorem epoch_example :
    parseSapDate (.str (utf16 "/Date(1717027200000)/")) = .ok (.str (utf16 "2024-05-30")) :=
  rfl

/-- C5 (counterexample). `parseSapDate("/Date(1717027200000)/")` does not
return `2025-05-30`. -/
theorem epoch_example_not_2025 :
    parseSapDate (.str (utf16 "/Date(1717027200000)/")) ≠ .ok (.str (utf16 "2025-05-30")) := by
  have h : parseSapDate (.str (utf16 "/Date(1717027200000)/"))
      = .ok (.str (utf16 "2024-05-30")) := rfl
  rw [h]
  intro hcon
  injection hcon with hcon
  injection hcon with hcon
  exact absurd hcon (by decide)

end VendorPortal
